import Mathlib

/-!
Verification of the Selection & Adaptation Engine of the-guttenberg-press.

The definitions below are a shallow embedding of the ranking module
(`rankStories` and its helpers) and of the feedback weight adapter
(`updateWeightsFromFeedback`).  JavaScript numbers are modelled as exact
rationals, absent object fields as `Option`/empty lists, and the JS `Set`
of used cluster identifiers as a list queried by membership.
-/

namespace Guttenberg

/-- A supporting assertion attached to a cluster: a source name and an optional URL.
`none` models an absent field; the empty string is falsy in JS, handled by `truthyStr`. -/
structure Assertion where
  source : Option String
  url : Option String
deriving DecidableEq

/-- JavaScript truthiness of an optional string field: present and non-empty. -/
def truthyStr : Option String → Bool
  | some s => s != ""
  | none => false

/-- The six per-cluster dimension scores; `none` models a missing field,
which the code reads as 0 via `|| 0`. -/
structure DimScores where
  system_shift : Option ℚ
  signal_timing : Option ℚ
  cross_domain : Option ℚ
  actionability : Option ℚ
  evidence_quality : Option ℚ
  disagreement : Option ℚ
deriving DecidableEq

/-- A candidate story cluster, as consumed by `rankStories`.  An absent
`domains` or `assertions` array is modelled by the empty list (the code
guards every access with `|| []` or a truthiness check). -/
structure Cluster where
  cluster_id : String
  headline : String
  dimension_scores : DimScores
  domains : List String
  assertions : List Assertion
  manual_boost : Bool
  why_this_matters : Option String
  source_count : Option Nat
deriving DecidableEq

/-- The six dimension weights read by the score aggregator. -/
structure Weights where
  system_shift : ℚ
  signal_timing : ℚ
  cross_domain : ℚ
  actionability : ℚ
  evidence_quality : ℚ
  disagreement : ℚ
deriving DecidableEq

/-- The constant `DEFAULT_WEIGHTS` from rank-stories. -/
def DEFAULT_WEIGHTS : Weights :=
  { system_shift := 0.25
    signal_timing := 0.20
    cross_domain := 0.20
    actionability := 0.20
    evidence_quality := 0.10
    disagreement := 0.05 }

/-- The ranking configuration: per-section thresholds and capacities, the
manual-boost constant, the minimum total story count and the surprise
threshold. -/
structure Config where
  threshold_front_page : ℚ
  threshold_business : ℚ
  threshold_sports : ℚ
  threshold_culture : ℚ
  threshold_personal : ℚ
  manual_boost : ℚ
  front_page_max : Nat
  business_max : Nat
  sports_max : Nat
  culture_max : Nat
  personal_max : Nat
  min_total_stories : Nat
  surprise_quota_threshold : ℚ
deriving DecidableEq

/-- The constant `DEFAULT_CONFIG` from rank-stories. -/
def DEFAULT_CONFIG : Config :=
  { threshold_front_page := 7.0
    threshold_business := 5.5
    threshold_sports := 5.0
    threshold_culture := 5.0
    threshold_personal := 6.0
    manual_boost := 2
    front_page_max := 5
    business_max := 4
    sports_max := 3
    culture_max := 3
    personal_max := 3
    min_total_stories := 8
    surprise_quota_threshold := 5.0 }

/-- The function `calculateFinalScore`: the weighted sum of the six dimension scores,
a missing score contributing 0. -/
def calculateFinalScore (cluster : Cluster) (weights : Weights) : ℚ :=
  (cluster.dimension_scores.system_shift.getD 0) * weights.system_shift +
  (cluster.dimension_scores.signal_timing.getD 0) * weights.signal_timing +
  (cluster.dimension_scores.cross_domain.getD 0) * weights.cross_domain +
  (cluster.dimension_scores.actionability.getD 0) * weights.actionability +
  (cluster.dimension_scores.evidence_quality.getD 0) * weights.evidence_quality +
  (cluster.dimension_scores.disagreement.getD 0) * weights.disagreement

/-- The number of assertions carrying a (truthy) source, as counted by the
`sourceCount` filter in `assignConfidenceLabel`. -/
def sourcedAssertionCount (cluster : Cluster) : Nat :=
  (cluster.assertions.filter (fun a => truthyStr a.source)).length

/-- The function `assignConfidenceLabel`: the confidence-label decision procedure.
The manual-boost branch is only entered when the assertions array is
present and non-empty, exactly as in the source (`manualBoost &&
cluster.assertions && cluster.assertions.length > 0`). -/
def assignConfidenceLabel (cluster : Cluster) (manualBoost : Bool) : String :=
  let evidence := cluster.dimension_scores.evidence_quality.getD 0
  let timing := cluster.dimension_scores.signal_timing.getD 0
  let disagreement := cluster.dimension_scores.disagreement.getD 0
  if manualBoost ∧ 0 < cluster.assertions.length then
    if 1 < sourcedAssertionCount cluster then "Your Signal → Confirmed"
    else "Your Signal"
  else if 8 ≤ disagreement then "Contested"
  else if 8 ≤ evidence ∧ timing ≤ 6 then "Confirmed Pattern"
  else if evidence ≤ 7 ∧ 8 ≤ timing then "Early Signal"
  else "Developing"

/-- A cluster annotated with its final score and confidence label
(the spread `{ ...cluster, final_score, confidence_label }`). -/
structure RankedCluster extends Cluster where
  final_score : ℚ
  confidence_label : String
deriving DecidableEq

/-- The per-cluster annotation step of `rankStories`: weighted score, plus
the configured `manual_boost` constant when the cluster is flagged, plus
the confidence label. -/
def annotateCluster (weights : Weights) (config : Config) (cluster : Cluster) : RankedCluster :=
  let finalScore := calculateFinalScore cluster weights
  let boostedScore := if cluster.manual_boost then finalScore + config.manual_boost else finalScore
  { cluster with
    final_score := boostedScore
    confidence_label := assignConfidenceLabel cluster cluster.manual_boost }

/-- A cluster placed into a section, carrying its global rank
(the spread `{ ...cluster, rank: rank++ }`). -/
structure PlacedCluster extends RankedCluster where
  rank : Nat
deriving DecidableEq

/-- The five section buckets built by `selectStoriesBySection`. -/
structure Selections where
  front_page : List PlacedCluster
  business : List PlacedCluster
  sports : List PlacedCluster
  culture : List PlacedCluster
  personal : List PlacedCluster
deriving DecidableEq

/-- The empty section buckets. -/
def emptySelections : Selections :=
  { front_page := [], business := [], sports := [], culture := [], personal := [] }

/-- One selection pass over the sorted cluster list for a single section:
stop once the section holds `cap` stories, skip clusters whose identifier
is already used (when `checkUsed` is set, i.e. for every section except
the first front-page pass), and admit a cluster when `pred` holds,
appending it with the next rank and recording its identifier. -/
def fillSection (cap : Nat) (checkUsed : Bool) (pred : RankedCluster → Bool) :
    List RankedCluster → List PlacedCluster → List String → Nat →
    List PlacedCluster × List String × Nat
  | [], sec, used, rank => (sec, used, rank)
  | c :: rest, sec, used, rank =>
    if cap ≤ sec.length then (sec, used, rank)
    else if checkUsed ∧ c.cluster_id ∈ used then
      fillSection cap checkUsed pred rest sec used rank
    else if pred c then
      fillSection cap checkUsed pred rest (sec ++ [{ c with rank := rank }])
        (c.cluster_id :: used) (rank + 1)
    else
      fillSection cap checkUsed pred rest sec used rank

/-- Front-page admission: score meets the front-page threshold. -/
def frontPagePred (config : Config) (c : RankedCluster) : Bool :=
  decide (config.threshold_front_page ≤ c.final_score)

/-- Business-section admission: an `ai` or `business` domain and the
business threshold. -/
def businessPred (config : Config) (c : RankedCluster) : Bool :=
  (c.domains.contains ("ai") || c.domains.contains ("business")) &&
    decide (config.threshold_business ≤ c.final_score)

/-- Sports-section admission. -/
def sportsPred (config : Config) (c : RankedCluster) : Bool :=
  c.domains.contains ("sports") && decide (config.threshold_sports ≤ c.final_score)

/-- Culture-section admission. -/
def culturePred (config : Config) (c : RankedCluster) : Bool :=
  c.domains.contains ("culture") && decide (config.threshold_culture ≤ c.final_score)

/-- Personal-section admission. -/
def personalPred (config : Config) (c : RankedCluster) : Bool :=
  c.domains.contains ("personal") && decide (config.threshold_personal ≤ c.final_score)

/-- The front-page pass of `selectStoriesBySection` (runs first, on an
empty used set, and does not consult it — matching the source loop,
which has no `usedClusterIds.has` check). -/
def selStageFront (sortedClusters : List RankedCluster) (config : Config) :
    List PlacedCluster × List String × Nat :=
  fillSection config.front_page_max false (frontPagePred config) sortedClusters [] [] 1

/-- The business pass, continuing from the front-page pass. -/
def selStageBusiness (sortedClusters : List RankedCluster) (config : Config) :
    List PlacedCluster × List String × Nat :=
  fillSection config.business_max true (businessPred config) sortedClusters []
    (selStageFront sortedClusters config).2.1 (selStageFront sortedClusters config).2.2

/-- The sports pass. -/
def selStageSports (sortedClusters : List RankedCluster) (config : Config) :
    List PlacedCluster × List String × Nat :=
  fillSection config.sports_max true (sportsPred config) sortedClusters []
    (selStageBusiness sortedClusters config).2.1 (selStageBusiness sortedClusters config).2.2

/-- The culture pass. -/
def selStageCulture (sortedClusters : List RankedCluster) (config : Config) :
    List PlacedCluster × List String × Nat :=
  fillSection config.culture_max true (culturePred config) sortedClusters []
    (selStageSports sortedClusters config).2.1 (selStageSports sortedClusters config).2.2

/-- The personal pass. -/
def selStagePersonal (sortedClusters : List RankedCluster) (config : Config) :
    List PlacedCluster × List String × Nat :=
  fillSection config.personal_max true (personalPred config) sortedClusters []
    (selStageCulture sortedClusters config).2.1 (selStageCulture sortedClusters config).2.2

/-- The function `selectStoriesBySection`: the five passes in fixed priority order,
sharing the used-identifier set and the global rank counter. -/
def selectStoriesBySection (sortedClusters : List RankedCluster) (config : Config) :
    Selections × List String × Nat :=
  ({ front_page := (selStageFront sortedClusters config).1
     business := (selStageBusiness sortedClusters config).1
     sports := (selStageSports sortedClusters config).1
     culture := (selStageCulture sortedClusters config).1
     personal := (selStagePersonal sortedClusters config).1 },
   (selStagePersonal sortedClusters config).2.1, (selStagePersonal sortedClusters config).2.2)

/-- Total number of stories currently held by the five sections
(`Object.values(selections).reduce((acc, s) => acc + s.length, 0)`). -/
def totalSelected (sels : Selections) : Nat :=
  sels.front_page.length + sels.business.length + sels.sports.length +
    sels.culture.length + sels.personal.length

/-- The front-page seeding loop of the fallback (run when zero stories
were admitted): push each cluster of the given prefix of the sorted list
into the front page, skipping already-used identifiers. -/
def seedFrontPage : List RankedCluster → Selections → List String → Nat →
    Selections × List String × Nat
  | [], sels, used, rank => (sels, used, rank)
  | c :: rest, sels, used, rank =>
    if c.cluster_id ∈ used then seedFrontPage rest sels used rank
    else seedFrontPage rest
      { sels with front_page := sels.front_page ++ [{ c with rank := rank }] }
      (c.cluster_id :: used) (rank + 1)

/-- One placement attempt of the fallback fill for a single unused
cluster: the else-if chain over `business`, `sports`, `culture`,
`personal` (domain match and remaining capacity, thresholds ignored),
returning `none` when no section took it. -/
def fallbackPlace (config : Config) (c : RankedCluster)
    (sels : Selections) (used : List String) (rank : Nat) :
    Option (Selections × List String × Nat) :=
  if (c.domains.contains ("ai") || c.domains.contains ("business")) ∧
      sels.business.length < config.business_max then
    some ({ sels with business := sels.business ++ [{ c with rank := rank }] },
      c.cluster_id :: used, rank + 1)
  else if c.domains.contains ("sports") ∧ sels.sports.length < config.sports_max then
    some ({ sels with sports := sels.sports ++ [{ c with rank := rank }] },
      c.cluster_id :: used, rank + 1)
  else if c.domains.contains ("culture") ∧ sels.culture.length < config.culture_max then
    some ({ sels with culture := sels.culture ++ [{ c with rank := rank }] },
      c.cluster_id :: used, rank + 1)
  else if c.domains.contains ("personal") ∧ sels.personal.length < config.personal_max then
    some ({ sels with personal := sels.personal ++ [{ c with rank := rank }] },
      c.cluster_id :: used, rank + 1)
  else none

/-- The whole fallback treatment of one unused cluster: the placement
attempt, then — when it did not fit a domain-matched section (`!placed`)
— the front page if it has room, else no change. -/
def fallbackStep (config : Config) (c : RankedCluster) (sels : Selections)
    (used : List String) (rank : Nat) : Selections × List String × Nat :=
  match fallbackPlace config c sels used rank with
  | some st => st
  | none =>
    if sels.front_page.length < config.front_page_max then
      ({ sels with front_page := sels.front_page ++ [{ c with rank := rank }] },
        c.cluster_id :: used, rank + 1)
    else (sels, used, rank)

/-- The fallback fill loop: for each cluster in score order, skip used
identifiers, try the domain-matched sections, fall back to the front page
when nothing matched and it has room, and stop as soon as the minimum
total is reached (checked after each processed cluster, as in the
source). -/
def fallbackFill (config : Config) : List RankedCluster → Selections → List String → Nat →
    Selections × List String × Nat
  | [], sels, used, rank => (sels, used, rank)
  | c :: rest, sels, used, rank =>
    if c.cluster_id ∈ used then fallbackFill config rest sels used rank
    else
      let next := fallbackStep config c sels used rank
      if config.min_total_stories ≤ totalSelected next.1 then next
      else fallbackFill config rest next.1 next.2.1 next.2.2

/-- The fallback stage of `rankStories`: triggered only when fewer than
`min_total_stories` stories were selected and the cluster list is
non-empty; seeds the front page when literally zero were selected, then
runs the fill loop over the whole sorted list. -/
def applyFallback (config : Config) (sortedClusters : List RankedCluster)
    (sels : Selections) (used : List String) (rank : Nat) :
    Selections × List String × Nat :=
  if totalSelected sels < config.min_total_stories ∧ 0 < sortedClusters.length then
    let seeded :=
      if totalSelected sels = 0 then
        seedFrontPage (sortedClusters.take (min config.front_page_max sortedClusters.length))
          sels used rank
      else (sels, used, rank)
    fallbackFill config sortedClusters seeded.1 seeded.2.1 seeded.2.2
  else (sels, used, rank)

/-- The distinct domains represented across the selected stories
(the `selectedDomains` JS `Set`; only membership and size are used). -/
def selectedDomainsOf (sels : Selections) : List String :=
  ((sels.front_page ++ sels.business ++ sels.sports ++ sels.culture ++ sels.personal).flatMap
    (fun p => p.domains)).dedup

/-- The distinct domains present anywhere in the cluster pool
(the `allDomains` JS `Set`). -/
def allDomainsOf (sortedClusters : List RankedCluster) : List String :=
  (sortedClusters.flatMap (fun c => c.domains)).dedup

/-- Surprise-pick admission: unused, a domain in the underrepresented
set, and the surprise threshold. -/
def surprisePredB (config : Config) (underrepresented : List String)
    (used : List String) (c : RankedCluster) : Bool :=
  !(used.contains c.cluster_id) &&
    ((c.domains.any (fun d => underrepresented.contains d)) &&
      decide (config.surprise_quota_threshold ≤ c.final_score))

/-- The scan of the sorted cluster list performed by the surprise quota:
return the first cluster that is unused, has an underrepresented domain
and meets the surprise threshold. -/
def surpriseScan (config : Config) (underrepresented : List String) (used : List String) :
    List RankedCluster → Option RankedCluster
  | [] => none
  | c :: rest =>
    if used.contains c.cluster_id then surpriseScan config underrepresented used rest
    else if (c.domains.any (fun d => underrepresented.contains d)) &&
        decide (config.surprise_quota_threshold ≤ c.final_score) then some c
    else surpriseScan config underrepresented used rest

/-- The function `applySupriseQuota` (name as in the source): when at most two
domains are represented in the selection, scan for the best story from a
domain present in the pool but absent from the selection; otherwise
return `null`. -/
def applySupriseQuota (sels : Selections) (sortedClusters : List RankedCluster)
    (used : List String) (config : Config) : Option RankedCluster :=
  let selectedDomains := selectedDomainsOf sels
  if selectedDomains.length ≤ 2 then
    let underrepresented :=
      (allDomainsOf sortedClusters).filter (fun d => !(selectedDomains.contains d))
    surpriseScan config underrepresented used sortedClusters
  else none

/-- The Story record built by `buildSelectedStory`. -/
structure Story where
  rank : Nat
  cluster_id : String
  headline : String
  final_score : ℚ
  confidence_label : String
  why_this_matters : String
  link_primary : Option String
  link_analysis : Option String
  link_community : Option String
  source_count : Nat
  domains : List String
  dimension_scores : DimScores
deriving DecidableEq

/-- The link extraction `cluster.assertions[i]?.url ? cluster.assertions[i].url : null`. -/
def linkAt (assertions : List Assertion) (i : Nat) : Option String :=
  match assertions.get? i with
  | some a => if truthyStr a.url then a.url else none
  | none => none

/-- The function `buildSelectedStory`: the derived Story view of a placed cluster. -/
def buildSelectedStory (cluster : RankedCluster) (rank : Nat) : Story :=
  { rank := rank
    cluster_id := cluster.cluster_id
    headline := cluster.headline
    final_score := cluster.final_score
    confidence_label := cluster.confidence_label
    why_this_matters :=
      match cluster.why_this_matters with
      | some s => if s != "" then s else "This story represents a significant development."
      | none => "This story represents a significant development."
    link_primary := linkAt cluster.assertions 0
    link_analysis := linkAt cluster.assertions 1
    link_community := linkAt cluster.assertions 2
    source_count :=
      match cluster.source_count with
      | some n => if n ≠ 0 then n else cluster.assertions.length
      | none => cluster.assertions.length
    domains := cluster.domains
    dimension_scores := cluster.dimension_scores }

/-- The `daily_selections` output object: five Story arrays plus the
optional surprise pick. -/
structure DailySelections where
  front_page : List Story
  business : List Story
  sports : List Story
  culture : List Story
  personal : List Story
  surprise_pick : Option Story
deriving DecidableEq

/-- A value of the `daily_selections` object as seen by the final
`Object.values(...).filter(s => s !== null).reduce(...)`: either a
section array or the single surprise Story. -/
inductive SectionValue where
  | stories : List Story → SectionValue
  | single : Story → SectionValue
deriving DecidableEq

/-- The non-null values of the `daily_selections` object, in key order. -/
def sectionValues (d : DailySelections) : List SectionValue :=
  [SectionValue.stories d.front_page, SectionValue.stories d.business,
   SectionValue.stories d.sports, SectionValue.stories d.culture,
   SectionValue.stories d.personal] ++
    (match d.surprise_pick with
     | some s => [SectionValue.single s]
     | none => [])

/-- The `total_stories` computation: fold over the non-null values,
adding an array's length or 1 for the surprise Story. -/
def totalStories (d : DailySelections) : Nat :=
  (sectionValues d).foldl
    (fun acc v =>
      match v with
      | SectionValue.stories l => acc + l.length
      | SectionValue.single _ => acc + 1) 0

/-- The annotated cluster list (`clustersWithScores`). -/
def annotateAll (clusters : List Cluster) (weights : Weights) (config : Config) :
    List RankedCluster :=
  clusters.map (annotateCluster weights config)

/-- The sort comparator `(a, b) => b.final_score - a.final_score`:
descending by final score, stable. -/
def sortedClustersOf (clusters : List Cluster) (weights : Weights) (config : Config) :
    List RankedCluster :=
  (annotateAll clusters weights config).mergeSort
    (fun a b => decide (b.final_score ≤ a.final_score))

/-- The section buckets, used-identifier set and next rank after the
section-selection and fallback stages of `rankStories`. -/
def rankPipeline (clusters : List Cluster) (weights : Weights) (config : Config) :
    Selections × List String × Nat :=
  let sorted := sortedClustersOf clusters weights config
  let sel := selectStoriesBySection sorted config
  applyFallback config sorted sel.1 sel.2.1 sel.2.2

/-- The check `Object.values(selections).some(section => section.length > 0)`. -/
def someSectionNonempty (sels : Selections) : Bool :=
  decide (0 < sels.front_page.length) || decide (0 < sels.business.length) ||
    decide (0 < sels.sports.length) || decide (0 < sels.culture.length) ||
    decide (0 < sels.personal.length)

/-- The surprise pick of a run (`null` when every section is empty). -/
def surprisePickOf (clusters : List Cluster) (weights : Weights) (config : Config) :
    Option RankedCluster :=
  let st := rankPipeline clusters weights config
  if someSectionNonempty st.1 then
    applySupriseQuota st.1 (sortedClustersOf clusters weights config) st.2.1 config
  else none

/-- The result object of `rankStories` (without the wall-clock timestamp). -/
structure RankResult where
  daily_selections : DailySelections
  total_stories : Nat
deriving DecidableEq

/-- The pure core of `rankStories`: annotate and sort the scored
clusters, select by section, apply the fallback fill and the surprise
quota, and build the final Story records and total count. -/
def rankStories (clusters : List Cluster) (weights : Weights) (config : Config) :
    RankResult :=
  let st := rankPipeline clusters weights config
  let sels := st.1
  let nextRank := st.2.2
  let surprisePick := surprisePickOf clusters weights config
  let dailySelections : DailySelections :=
    { front_page := sels.front_page.map (fun s => buildSelectedStory s.toRankedCluster s.rank)
      business := sels.business.map (fun s => buildSelectedStory s.toRankedCluster s.rank)
      sports := sels.sports.map (fun s => buildSelectedStory s.toRankedCluster s.rank)
      culture := sels.culture.map (fun s => buildSelectedStory s.toRankedCluster s.rank)
      personal := sels.personal.map (fun s => buildSelectedStory s.toRankedCluster s.rank)
      surprise_pick := surprisePick.map (fun c => buildSelectedStory c nextRank) }
  { daily_selections := dailySelections
    total_stories := totalStories dailySelections }

/-- A stored feedback record as read by the weight adapter: story
identifier, reaction emoji, and the story's domain set at delivery time
(absent modelled as the empty list, matching the `if (entry.story_domains)`
guard). -/
structure FeedbackEntry where
  story_id : String
  reaction : String
  story_domains : List String
deriving DecidableEq

/-- The `dimensionImpact` tally for one key: +1 per occurrence of the key
in a promoted (`👍`) entry's domains, −1 per occurrence in a demoted
(`👎`) entry's domains. -/
def domainImpact (feedback : List FeedbackEntry) (key : String) : ℤ :=
  ((feedback.filter (fun e => e.reaction == ("👍"))).map
      (fun e => (e.story_domains.count key : ℤ))).sum -
    ((feedback.filter (fun e => e.reaction == ("👎"))).map
      (fun e => (e.story_domains.count key : ℤ))).sum

/-- The clamped raw adjustment `Math.max(-0.02, Math.min(0.02, impact * 0.01))`. -/
def clampedAdjustment (impact : ℤ) : ℚ :=
  max (-0.02) (min 0.02 ((impact : ℚ) * 0.01))

/-- The per-dimension update: when the tally for the dimension's name is
nonzero, add the clamped adjustment and floor the weight at 0.01;
otherwise leave the weight alone. -/
def adjustWeight (feedback : List FeedbackEntry) (key : String) (w : ℚ) : ℚ :=
  let impact := domainImpact feedback key
  if impact ≠ 0 then max 0.01 (w + clampedAdjustment impact) else w

/-- All six dimension weights after the adjustment loop (before
renormalization). -/
def adjustedWeights (feedback : List FeedbackEntry) (w : Weights) : Weights :=
  { system_shift := adjustWeight feedback ("system_shift") w.system_shift
    signal_timing := adjustWeight feedback ("signal_timing") w.signal_timing
    cross_domain := adjustWeight feedback ("cross_domain") w.cross_domain
    actionability := adjustWeight feedback ("actionability") w.actionability
    evidence_quality := adjustWeight feedback ("evidence_quality") w.evidence_quality
    disagreement := adjustWeight feedback ("disagreement") w.disagreement }

/-- The sum of the six dimension weights (`manual_boost` excluded, as in
the source's filter). -/
def weightsSum (w : Weights) : ℚ :=
  w.system_shift + w.signal_timing + w.cross_domain + w.actionability +
    w.evidence_quality + w.disagreement

/-- The number of dimensions whose tally was nonzero (`adjustmentCount`). -/
def adjustmentCount (feedback : List FeedbackEntry) : Nat :=
  (([("system_shift"), ("signal_timing"), ("cross_domain"), ("actionability"),
      ("evidence_quality"), ("disagreement")] : List String).filter
    (fun k => domainImpact feedback k ≠ 0)).length

/-- Renormalization: divide every dimension weight by the post-adjustment
total, guarded by `totalWeight > 0` as in the source. -/
def normalizeWeights (w : Weights) : Weights :=
  let totalWeight := weightsSum w
  if 0 < totalWeight then
    { system_shift := w.system_shift / totalWeight
      signal_timing := w.signal_timing / totalWeight
      cross_domain := w.cross_domain / totalWeight
      actionability := w.actionability / totalWeight
      evidence_quality := w.evidence_quality / totalWeight
      disagreement := w.disagreement / totalWeight }
  else w

/-- The outcome of one adapter run: the persisted weights after the run
(unchanged when nothing was saved), the `updated` flag and the summary.
The dynamic parts of the source's summary strings (counts and the JSON
change list) are not modelled; the two no-update summaries are kept
verbatim. -/
structure AdapterResult where
  store : Weights
  updated : Bool
  summary : String
deriving DecidableEq

/-- The function `updateWeightsFromFeedback`: the pure core of the weekly adapter.
With no feedback records, or none carrying a `👍`/`👎` reaction, the run
returns a no-update summary and leaves the store untouched; otherwise it
adjusts the matching dimensions, renormalizes, and persists. -/
def updateWeightsFromFeedback (feedback : List FeedbackEntry) (weights : Weights) :
    AdapterResult :=
  if feedback.length = 0 then
    { store := weights, updated := false, summary := "No feedback data available" }
  else
    let promoted := feedback.filter (fun e => e.reaction == ("👍"))
    let demoted := feedback.filter (fun e => e.reaction == ("👎"))
    if promoted.length + demoted.length = 0 then
      { store := weights, updated := false, summary := "No reactions recorded" }
    else
      let adjusted := adjustedWeights feedback weights
      let normalized := normalizeWeights adjusted
      { store := normalized
        updated := decide (0 < adjustmentCount feedback)
        summary :=
          if 0 < adjustmentCount feedback then "Updated dimensions based on reactions"
          else "No dimension adjustments needed based on feedback patterns" }

/-! ## General lemmas -/

/-- The field `total_stories` unfolded: the five section lengths plus one for a
non-null surprise pick. -/
theorem totalStories_eq (d : DailySelections) :
    totalStories d =
      d.front_page.length + d.business.length + d.sports.length +
        d.culture.length + d.personal.length +
        (if d.surprise_pick.isSome then 1 else 0) := by
  cases h : d.surprise_pick <;> simp [totalStories, sectionValues, h]

/-- Identifiers already recorded as used persist through a section pass. -/
theorem fillSection_used_mono (cap : Nat) (cu : Bool) (pred : RankedCluster → Bool)
    (l : List RankedCluster) :
    ∀ (sec : List PlacedCluster) (used : List String) (rank : Nat) (x : String),
      x ∈ used → x ∈ (fillSection cap cu pred l sec used rank).2.1 := by
  induction l with
  | nil => intro sec used rank x hx; simpa [fillSection] using hx
  | cons c rest ih =>
    intro sec used rank x hx
    simp only [fillSection]
    split_ifs
    · exact hx
    · exact ih _ _ _ _ hx
    · exact ih _ _ _ _ (List.mem_cons_of_mem _ hx)
    · exact ih _ _ _ _ hx

/-- Every story a section pass emits was either already in the section,
or is newly admitted: its identifier is recorded in the resulting used
set, and — when the pass consults the used set — was not in the incoming
used set. -/
theorem fillSection_mem (cap : Nat) (cu : Bool) (pred : RankedCluster → Bool)
    (l : List RankedCluster) :
    ∀ (sec : List PlacedCluster) (used : List String) (rank : Nat) (p : PlacedCluster),
      p ∈ (fillSection cap cu pred l sec used rank).1 →
      p ∈ sec ∨ (p.cluster_id ∈ (fillSection cap cu pred l sec used rank).2.1 ∧
        (cu = true → p.cluster_id ∉ used)) := by
  induction l with
  | nil => intro sec used rank p hp; exact Or.inl (by simpa [fillSection] using hp)
  | cons c rest ih =>
    intro sec used rank p
    simp only [fillSection]
    split_ifs with h1 h2 h3
    · exact fun hp => Or.inl hp
    · intro hp
      rcases ih _ _ _ p hp with h | ⟨ha, hb⟩
      · exact Or.inl h
      · exact Or.inr ⟨ha, hb⟩
    · intro hp
      rcases ih _ _ _ p hp with h | ⟨ha, hb⟩
      · rcases List.mem_append.mp h with h' | h'
        · exact Or.inl h'
        · have hpc : p = { c with rank := rank } := by simpa using h'
          subst hpc
          refine Or.inr ⟨?_, ?_⟩
          · exact fillSection_used_mono cap cu pred rest _ _ _ _ (List.mem_cons_self _ _)
          · intro hcu hmem
            exact h2 ⟨hcu, hmem⟩
      · refine Or.inr ⟨ha, fun hcu hmem => hb hcu (List.mem_cons_of_mem _ hmem)⟩
    · intro hp
      rcases ih _ _ _ p hp with h | ⟨ha, hb⟩
      · exact Or.inl h
      · exact Or.inr ⟨ha, hb⟩

/-- A section pass never exceeds the section's capacity. -/
theorem fillSection_length_le (cap : Nat) (cu : Bool) (pred : RankedCluster → Bool)
    (l : List RankedCluster) :
    ∀ (sec : List PlacedCluster) (used : List String) (rank : Nat),
      sec.length ≤ cap → (fillSection cap cu pred l sec used rank).1.length ≤ cap := by
  induction l with
  | nil => intro sec used rank h; simpa [fillSection] using h
  | cons c rest ih =>
    intro sec used rank h
    simp only [fillSection]
    split_ifs with h1 h2 h3
    · exact h
    · exact ih _ _ _ h
    · exact ih _ _ _ (by simp; omega)
    · exact ih _ _ _ h

/-- A section pass whose admission predicate rejects every cluster of the
list changes nothing. -/
theorem fillSection_no_admit (cap : Nat) (cu : Bool) (pred : RankedCluster → Bool)
    (l : List RankedCluster) (hl : ∀ c ∈ l, pred c = false) :
    ∀ (sec : List PlacedCluster) (used : List String) (rank : Nat),
      fillSection cap cu pred l sec used rank = (sec, used, rank) := by
  induction l with
  | nil => intro sec used rank; simp [fillSection]
  | cons c rest ih =>
    intro sec used rank
    have hc : pred c = false := hl c (List.mem_cons_self _ _)
    have hrest : ∀ c' ∈ rest, pred c' = false := fun c' hc' => hl c' (List.mem_cons_of_mem _ hc')
    simp only [fillSection]
    split_ifs with h1 h2 h3
    · rfl
    · exact ih hrest _ _ _
    · simp [hc] at h3
    · exact ih hrest _ _ _

/-- No cluster identifier is shared between the two lists. -/
def IdDisjoint (s t : List PlacedCluster) : Prop :=
  ∀ p ∈ s, ∀ q ∈ t, p.cluster_id ≠ q.cluster_id

/-- Every identifier placed in any section is recorded in the used set. -/
def IdsInUsed (sels : Selections) (used : List String) : Prop :=
  (∀ p ∈ sels.front_page, p.cluster_id ∈ used) ∧
  (∀ p ∈ sels.business, p.cluster_id ∈ used) ∧
  (∀ p ∈ sels.sports, p.cluster_id ∈ used) ∧
  (∀ p ∈ sels.culture, p.cluster_id ∈ used) ∧
  (∀ p ∈ sels.personal, p.cluster_id ∈ used)

/-- No cluster identifier appears in two distinct sections. -/
def SelDisjoint (sels : Selections) : Prop :=
  IdDisjoint sels.front_page sels.business ∧ IdDisjoint sels.front_page sels.sports ∧
  IdDisjoint sels.front_page sels.culture ∧ IdDisjoint sels.front_page sels.personal ∧
  IdDisjoint sels.business sels.sports ∧ IdDisjoint sels.business sels.culture ∧
  IdDisjoint sels.business sels.personal ∧ IdDisjoint sels.sports sels.culture ∧
  IdDisjoint sels.sports sels.personal ∧ IdDisjoint sels.culture sels.personal

/-- The exclusivity invariant carried through selection and fallback:
all placed identifiers are used, and sections are pairwise
identifier-disjoint. -/
def SelInv (sels : Selections) (used : List String) : Prop :=
  IdsInUsed sels used ∧ SelDisjoint sels

/-- Appending one story whose identifier is fresh preserves disjointness
against a list whose identifiers are all used. -/
theorem idDisjoint_append_right (s t : List PlacedCluster) (used : List String)
    (c : RankedCluster) (rank : Nat)
    (hd : IdDisjoint s t) (hs : ∀ p ∈ s, p.cluster_id ∈ used)
    (hc : c.cluster_id ∉ used) :
    IdDisjoint s (t ++ [{ c with rank := rank }]) := by
  intro p hp q hq
  rcases List.mem_append.mp hq with h | h
  · exact hd p hp q h
  · have hq' : q = { c with rank := rank } := by simpa using h
    subst hq'
    intro he
    exact hc (he ▸ hs p hp)

/-- Symmetric version: the fresh story is appended to the left list. -/
theorem idDisjoint_append_left (s t : List PlacedCluster) (used : List String)
    (c : RankedCluster) (rank : Nat)
    (hd : IdDisjoint s t) (ht : ∀ p ∈ t, p.cluster_id ∈ used)
    (hc : c.cluster_id ∉ used) :
    IdDisjoint (s ++ [{ c with rank := rank }]) t := by
  intro p hp q hq
  rcases List.mem_append.mp hp with h | h
  · exact hd p h q hq
  · have hp' : p = { c with rank := rank } := by simpa using h
    subst hp'
    intro he
    exact hc (he.symm ▸ ht q hq)

/-- Identifier lists stay in any superset of the used set. -/
theorem idsInUsed_mono (sels : Selections) (used usedTwo : List String)
    (h : IdsInUsed sels used) (hsub : ∀ x ∈ used, x ∈ usedTwo) :
    IdsInUsed sels usedTwo :=
  ⟨fun p hp => hsub _ (h.1 p hp), fun p hp => hsub _ (h.2.1 p hp),
    fun p hp => hsub _ (h.2.2.1 p hp), fun p hp => hsub _ (h.2.2.2.1 p hp),
    fun p hp => hsub _ (h.2.2.2.2 p hp)⟩

/-- Membership in an extended front page. -/
theorem mem_section_append {p : PlacedCluster} {s : List PlacedCluster}
    {c : RankedCluster} {rank : Nat} (hp : p ∈ s ++ [{ c with rank := rank }]) :
    p ∈ s ∨ p = { c with rank := rank } := by
  rcases List.mem_append.mp hp with h | h
  · exact Or.inl h
  · exact Or.inr (by simpa using h)

/-- Pushing a fresh cluster into the front page preserves the invariant. -/
theorem selInv_push_front (sels : Selections) (used : List String)
    (c : RankedCluster) (rank : Nat) (hinv : SelInv sels used)
    (hc : c.cluster_id ∉ used) :
    SelInv { sels with front_page := sels.front_page ++ [{ c with rank := rank }] }
      (c.cluster_id :: used) := by
  obtain ⟨⟨h1, h2, h3, h4, h5⟩, hd1, hd2, hd3, hd4, hd5, hd6, hd7, hd8, hd9, hd10⟩ := hinv
  refine ⟨⟨?_, ?_, ?_, ?_, ?_⟩, ?_, ?_, ?_, ?_, hd5, hd6, hd7, hd8, hd9, hd10⟩
  · intro p hp
    rcases mem_section_append hp with h | h
    · exact List.mem_cons_of_mem _ (h1 p h)
    · subst h; exact List.mem_cons_self _ _
  · exact fun p hp => List.mem_cons_of_mem _ (h2 p hp)
  · exact fun p hp => List.mem_cons_of_mem _ (h3 p hp)
  · exact fun p hp => List.mem_cons_of_mem _ (h4 p hp)
  · exact fun p hp => List.mem_cons_of_mem _ (h5 p hp)
  · exact idDisjoint_append_left _ _ used c rank hd1 h2 hc
  · exact idDisjoint_append_left _ _ used c rank hd2 h3 hc
  · exact idDisjoint_append_left _ _ used c rank hd3 h4 hc
  · exact idDisjoint_append_left _ _ used c rank hd4 h5 hc

/-- Pushing a fresh cluster into the business section preserves the
invariant. -/
theorem selInv_push_business (sels : Selections) (used : List String)
    (c : RankedCluster) (rank : Nat) (hinv : SelInv sels used)
    (hc : c.cluster_id ∉ used) :
    SelInv { sels with business := sels.business ++ [{ c with rank := rank }] }
      (c.cluster_id :: used) := by
  obtain ⟨⟨h1, h2, h3, h4, h5⟩, hd1, hd2, hd3, hd4, hd5, hd6, hd7, hd8, hd9, hd10⟩ := hinv
  refine ⟨⟨?_, ?_, ?_, ?_, ?_⟩, ?_, hd2, hd3, hd4, ?_, ?_, ?_, hd8, hd9, hd10⟩
  · exact fun p hp => List.mem_cons_of_mem _ (h1 p hp)
  · intro p hp
    rcases mem_section_append hp with h | h
    · exact List.mem_cons_of_mem _ (h2 p h)
    · subst h; exact List.mem_cons_self _ _
  · exact fun p hp => List.mem_cons_of_mem _ (h3 p hp)
  · exact fun p hp => List.mem_cons_of_mem _ (h4 p hp)
  · exact fun p hp => List.mem_cons_of_mem _ (h5 p hp)
  · exact idDisjoint_append_right _ _ used c rank hd1 h1 hc
  · exact idDisjoint_append_left _ _ used c rank hd5 h3 hc
  · exact idDisjoint_append_left _ _ used c rank hd6 h4 hc
  · exact idDisjoint_append_left _ _ used c rank hd7 h5 hc

/-- Pushing a fresh cluster into the sports section preserves the
invariant. -/
theorem selInv_push_sports (sels : Selections) (used : List String)
    (c : RankedCluster) (rank : Nat) (hinv : SelInv sels used)
    (hc : c.cluster_id ∉ used) :
    SelInv { sels with sports := sels.sports ++ [{ c with rank := rank }] }
      (c.cluster_id :: used) := by
  obtain ⟨⟨h1, h2, h3, h4, h5⟩, hd1, hd2, hd3, hd4, hd5, hd6, hd7, hd8, hd9, hd10⟩ := hinv
  refine ⟨⟨?_, ?_, ?_, ?_, ?_⟩, hd1, ?_, hd3, hd4, ?_, hd6, hd7, ?_, ?_, hd10⟩
  · exact fun p hp => List.mem_cons_of_mem _ (h1 p hp)
  · exact fun p hp => List.mem_cons_of_mem _ (h2 p hp)
  · intro p hp
    rcases mem_section_append hp with h | h
    · exact List.mem_cons_of_mem _ (h3 p h)
    · subst h; exact List.mem_cons_self _ _
  · exact fun p hp => List.mem_cons_of_mem _ (h4 p hp)
  · exact fun p hp => List.mem_cons_of_mem _ (h5 p hp)
  · exact idDisjoint_append_right _ _ used c rank hd2 h1 hc
  · exact idDisjoint_append_right _ _ used c rank hd5 h2 hc
  · exact idDisjoint_append_left _ _ used c rank hd8 h4 hc
  · exact idDisjoint_append_left _ _ used c rank hd9 h5 hc

/-- Pushing a fresh cluster into the culture section preserves the
invariant. -/
theorem selInv_push_culture (sels : Selections) (used : List String)
    (c : RankedCluster) (rank : Nat) (hinv : SelInv sels used)
    (hc : c.cluster_id ∉ used) :
    SelInv { sels with culture := sels.culture ++ [{ c with rank := rank }] }
      (c.cluster_id :: used) := by
  obtain ⟨⟨h1, h2, h3, h4, h5⟩, hd1, hd2, hd3, hd4, hd5, hd6, hd7, hd8, hd9, hd10⟩ := hinv
  refine ⟨⟨?_, ?_, ?_, ?_, ?_⟩, hd1, hd2, ?_, hd4, hd5, ?_, hd7, ?_, hd9, ?_⟩
  · exact fun p hp => List.mem_cons_of_mem _ (h1 p hp)
  · exact fun p hp => List.mem_cons_of_mem _ (h2 p hp)
  · exact fun p hp => List.mem_cons_of_mem _ (h3 p hp)
  · intro p hp
    rcases mem_section_append hp with h | h
    · exact List.mem_cons_of_mem _ (h4 p h)
    · subst h; exact List.mem_cons_self _ _
  · exact fun p hp => List.mem_cons_of_mem _ (h5 p hp)
  · exact idDisjoint_append_right _ _ used c rank hd3 h1 hc
  · exact idDisjoint_append_right _ _ used c rank hd6 h2 hc
  · exact idDisjoint_append_right _ _ used c rank hd8 h3 hc
  · exact idDisjoint_append_left _ _ used c rank hd10 h5 hc

/-- Pushing a fresh cluster into the personal section preserves the
invariant. -/
theorem selInv_push_personal (sels : Selections) (used : List String)
    (c : RankedCluster) (rank : Nat) (hinv : SelInv sels used)
    (hc : c.cluster_id ∉ used) :
    SelInv { sels with personal := sels.personal ++ [{ c with rank := rank }] }
      (c.cluster_id :: used) := by
  obtain ⟨⟨h1, h2, h3, h4, h5⟩, hd1, hd2, hd3, hd4, hd5, hd6, hd7, hd8, hd9, hd10⟩ := hinv
  refine ⟨⟨?_, ?_, ?_, ?_, ?_⟩, hd1, hd2, hd3, ?_, hd5, hd6, ?_, hd8, ?_, ?_⟩
  · exact fun p hp => List.mem_cons_of_mem _ (h1 p hp)
  · exact fun p hp => List.mem_cons_of_mem _ (h2 p hp)
  · exact fun p hp => List.mem_cons_of_mem _ (h3 p hp)
  · exact fun p hp => List.mem_cons_of_mem _ (h4 p hp)
  · intro p hp
    rcases mem_section_append hp with h | h
    · exact List.mem_cons_of_mem _ (h5 p h)
    · subst h; exact List.mem_cons_self _ _
  · exact idDisjoint_append_right _ _ used c rank hd4 h1 hc
  · exact idDisjoint_append_right _ _ used c rank hd7 h2 hc
  · exact idDisjoint_append_right _ _ used c rank hd9 h3 hc
  · exact idDisjoint_append_right _ _ used c rank hd10 h4 hc

/-- Every section respects its configured capacity. -/
def CapInv (sels : Selections) (config : Config) : Prop :=
  sels.front_page.length ≤ config.front_page_max ∧
  sels.business.length ≤ config.business_max ∧
  sels.sports.length ≤ config.sports_max ∧
  sels.culture.length ≤ config.culture_max ∧
  sels.personal.length ≤ config.personal_max

/-- A successful fallback placement extends the used set with the
cluster's identifier, grows the total by one, and preserves the
exclusivity and capacity invariants. -/
theorem fallbackPlace_spec (config : Config) (c : RankedCluster) (sels : Selections)
    (used : List String) (rank : Nat) (st : Selections × List String × Nat)
    (h : fallbackPlace config c sels used rank = some st) :
    st.2.1 = c.cluster_id :: used ∧
      totalSelected st.1 = totalSelected sels + 1 ∧
      (c.cluster_id ∉ used → SelInv sels used → SelInv st.1 st.2.1) ∧
      (CapInv sels config → CapInv st.1 config) := by
  simp only [fallbackPlace] at h
  split_ifs at h with h1 h2 h3 h4
  · obtain rfl := Option.some.inj h
    refine ⟨rfl, by simp [totalSelected]; omega, ?_, ?_⟩
    · intro hc hinv; exact selInv_push_business sels used c rank hinv hc
    · rintro ⟨c1, c2, c3, c4, c5⟩
      have := h1.2
      exact ⟨c1, by simpa using this, c3, c4, c5⟩
  · obtain rfl := Option.some.inj h
    refine ⟨rfl, by simp [totalSelected]; omega, ?_, ?_⟩
    · intro hc hinv; exact selInv_push_sports sels used c rank hinv hc
    · rintro ⟨c1, c2, c3, c4, c5⟩
      have := h2.2
      exact ⟨c1, c2, by simpa using this, c4, c5⟩
  · obtain rfl := Option.some.inj h
    refine ⟨rfl, by simp [totalSelected]; omega, ?_, ?_⟩
    · intro hc hinv; exact selInv_push_culture sels used c rank hinv hc
    · rintro ⟨c1, c2, c3, c4, c5⟩
      have := h3.2
      exact ⟨c1, c2, c3, by simpa using this, c5⟩
  · obtain rfl := Option.some.inj h
    refine ⟨rfl, by simp [totalSelected]; omega, ?_, ?_⟩
    · intro hc hinv; exact selInv_push_personal sels used c rank hinv hc
    · rintro ⟨c1, c2, c3, c4, c5⟩
      have := h4.2
      exact ⟨c1, c2, c3, c4, by simpa using this⟩

/-- One fallback step either records the cluster as used or changes
nothing; it never shrinks the total and preserves both invariants. -/
theorem fallbackStep_spec (config : Config) (c : RankedCluster) (sels : Selections)
    (used : List String) (rank : Nat) :
    ((fallbackStep config c sels used rank).2.1 = c.cluster_id :: used ∨
        fallbackStep config c sels used rank = (sels, used, rank)) ∧
      (c.cluster_id ∉ used → SelInv sels used →
        SelInv (fallbackStep config c sels used rank).1
          (fallbackStep config c sels used rank).2.1) ∧
      (CapInv sels config → CapInv (fallbackStep config c sels used rank).1 config) ∧
      totalSelected sels ≤ totalSelected (fallbackStep config c sels used rank).1 := by
  rcases hpl : fallbackPlace config c sels used rank with _ | st
  · simp only [fallbackStep, hpl]
    split_ifs with hf
    · refine ⟨Or.inl rfl, ?_, ?_, ?_⟩
      · intro hc hinv; exact selInv_push_front sels used c rank hinv hc
      · rintro ⟨c1, c2, c3, c4, c5⟩
        exact ⟨by simpa using hf, c2, c3, c4, c5⟩
      · simp [totalSelected]
    · exact ⟨Or.inr rfl, fun _ hinv => hinv, fun hcap => hcap, le_refl _⟩
  · obtain ⟨hu, ht, hinv, hcap⟩ := fallbackPlace_spec config c sels used rank st hpl
    simp only [fallbackStep, hpl]
    exact ⟨Or.inl hu, hinv, hcap, by omega⟩

/-- The fallback fill loop preserves the used set, both invariants, and
never shrinks the total. -/
theorem fallbackFill_spec (config : Config) (l : List RankedCluster) :
    ∀ (sels : Selections) (used : List String) (rank : Nat),
      (∀ x ∈ used, x ∈ (fallbackFill config l sels used rank).2.1) ∧
        (SelInv sels used →
          SelInv (fallbackFill config l sels used rank).1
            (fallbackFill config l sels used rank).2.1) ∧
        (CapInv sels config → CapInv (fallbackFill config l sels used rank).1 config) ∧
        totalSelected sels ≤ totalSelected (fallbackFill config l sels used rank).1 := by
  induction l with
  | nil =>
    intro sels used rank
    exact ⟨fun x hx => by simpa [fallbackFill] using hx,
      fun hinv => by simpa [fallbackFill] using hinv,
      fun hcap => by simpa [fallbackFill] using hcap,
      by simp [fallbackFill]⟩
  | cons c rest ih =>
    intro sels used rank
    obtain ⟨hshape, hinvStep, hcapStep, htotStep⟩ := fallbackStep_spec config c sels used rank
    have husedStep : ∀ x ∈ used, x ∈ (fallbackStep config c sels used rank).2.1 := by
      rcases hshape with h | h
      · intro x hx; rw [h]; exact List.mem_cons_of_mem _ hx
      · intro x hx; rw [h]; exact hx
    simp only [fallbackFill]
    split_ifs with h1 h2
    · exact ih sels used rank
    · exact ⟨husedStep, fun hinv => hinvStep h1 hinv, hcapStep, htotStep⟩
    · obtain ⟨ihUsed, ihInv, ihCap, ihTot⟩ :=
        ih (fallbackStep config c sels used rank).1
          (fallbackStep config c sels used rank).2.1
          (fallbackStep config c sels used rank).2.2
      refine ⟨fun x hx => ihUsed x (husedStep x hx), ?_, ?_, ?_⟩
      · intro hinv
        exact ihInv (hinvStep h1 hinv)
      · intro hcap
        exact ihCap (hcapStep hcap)
      · exact le_trans htotStep ihTot

/-- The seeding loop preserves the used set and the exclusivity
invariant, touches only the front page, and adds at most one story per
scanned cluster. -/
theorem seedFrontPage_spec (l : List RankedCluster) :
    ∀ (sels : Selections) (used : List String) (rank : Nat),
      (∀ x ∈ used, x ∈ (seedFrontPage l sels used rank).2.1) ∧
        (SelInv sels used →
          SelInv (seedFrontPage l sels used rank).1 (seedFrontPage l sels used rank).2.1) ∧
        ((seedFrontPage l sels used rank).1.business = sels.business ∧
          (seedFrontPage l sels used rank).1.sports = sels.sports ∧
          (seedFrontPage l sels used rank).1.culture = sels.culture ∧
          (seedFrontPage l sels used rank).1.personal = sels.personal) ∧
        (seedFrontPage l sels used rank).1.front_page.length ≤
          sels.front_page.length + l.length := by
  induction l with
  | nil =>
    intro sels used rank
    exact ⟨fun x hx => by simpa [seedFrontPage] using hx,
      fun hinv => by simpa [seedFrontPage] using hinv,
      by simp [seedFrontPage], by simp [seedFrontPage]⟩
  | cons c rest ih =>
    intro sels used rank
    simp only [seedFrontPage]
    split_ifs with h1
    · obtain ⟨ihUsed, ihInv, ihSecs, ihLen⟩ := ih sels used rank
      exact ⟨ihUsed, ihInv, ihSecs, by simpa using Nat.le_trans ihLen (by omega)⟩
    · obtain ⟨ihUsed, ihInv, ihSecs, ihLen⟩ :=
        ih { sels with front_page := sels.front_page ++ [{ c with rank := rank }] }
          (c.cluster_id :: used) (rank + 1)
      refine ⟨fun x hx => ihUsed x (List.mem_cons_of_mem _ hx), ?_, by simpa using ihSecs, ?_⟩
      · intro hinv
        exact ihInv (selInv_push_front sels used c rank hinv h1)
      · refine le_trans ihLen ?_
        simp
        omega

/-- With fresh, pairwise-distinct identifiers, the seeding loop admits
every scanned cluster. -/
theorem seedFrontPage_count (l : List RankedCluster) :
    ∀ (sels : Selections) (used : List String) (rank : Nat),
      (∀ c ∈ l, c.cluster_id ∉ used) →
      (l.map (fun c => c.cluster_id)).Nodup →
      (seedFrontPage l sels used rank).1.front_page.length =
        sels.front_page.length + l.length := by
  induction l with
  | nil => intro sels used rank _ _; simp [seedFrontPage]
  | cons c rest ih =>
    intro sels used rank hfresh hnd
    have hc : c.cluster_id ∉ used := hfresh c (List.mem_cons_self _ _)
    simp only [seedFrontPage]
    rw [if_neg hc]
    have hrest : ∀ c' ∈ rest, c'.cluster_id ∉ c.cluster_id :: used := by
      intro c' hc' hmem
      rcases List.mem_cons.mp hmem with h | h
      · have : c.cluster_id ∈ rest.map (fun x => x.cluster_id) :=
          h ▸ List.mem_map_of_mem _ hc'
        exact (List.nodup_cons.mp (by simpa using hnd)).1 this
      · exact hfresh c' (List.mem_cons_of_mem _ hc') h
    have hnd' : (rest.map (fun x => x.cluster_id)).Nodup :=
      (List.nodup_cons.mp (by simpa using hnd)).2
    rw [ih _ _ _ hrest hnd']
    simp
    omega

/-- The section selector establishes the exclusivity invariant: every
placed identifier is recorded, and the five sections are pairwise
identifier-disjoint. -/
theorem selectStoriesBySection_inv (sorted : List RankedCluster) (config : Config) :
    SelInv (selectStoriesBySection sorted config).1
      (selectStoriesBySection sorted config).2.1 := by
  have hfp : ∀ p ∈ (selStageFront sorted config).1,
      p.cluster_id ∈ (selStageFront sorted config).2.1 := by
    intro p hp
    rcases fillSection_mem config.front_page_max false (frontPagePred config) sorted
      [] [] 1 p hp with h | ⟨ha, _⟩
    · simp at h
    · exact ha
  have hbus : ∀ p ∈ (selStageBusiness sorted config).1,
      p.cluster_id ∈ (selStageBusiness sorted config).2.1 ∧
        p.cluster_id ∉ (selStageFront sorted config).2.1 := by
    intro p hp
    rcases fillSection_mem config.business_max true (businessPred config) sorted
      [] (selStageFront sorted config).2.1 (selStageFront sorted config).2.2 p hp with
      h | ⟨ha, hb⟩
    · simp at h
    · exact ⟨ha, hb rfl⟩
  have hsp : ∀ p ∈ (selStageSports sorted config).1,
      p.cluster_id ∈ (selStageSports sorted config).2.1 ∧
        p.cluster_id ∉ (selStageBusiness sorted config).2.1 := by
    intro p hp
    rcases fillSection_mem config.sports_max true (sportsPred config) sorted
      [] (selStageBusiness sorted config).2.1 (selStageBusiness sorted config).2.2 p hp with
      h | ⟨ha, hb⟩
    · simp at h
    · exact ⟨ha, hb rfl⟩
  have hcu : ∀ p ∈ (selStageCulture sorted config).1,
      p.cluster_id ∈ (selStageCulture sorted config).2.1 ∧
        p.cluster_id ∉ (selStageSports sorted config).2.1 := by
    intro p hp
    rcases fillSection_mem config.culture_max true (culturePred config) sorted
      [] (selStageSports sorted config).2.1 (selStageSports sorted config).2.2 p hp with
      h | ⟨ha, hb⟩
    · simp at h
    · exact ⟨ha, hb rfl⟩
  have hpe : ∀ p ∈ (selStagePersonal sorted config).1,
      p.cluster_id ∈ (selStagePersonal sorted config).2.1 ∧
        p.cluster_id ∉ (selStageCulture sorted config).2.1 := by
    intro p hp
    rcases fillSection_mem config.personal_max true (personalPred config) sorted
      [] (selStageCulture sorted config).2.1 (selStageCulture sorted config).2.2 p hp with
      h | ⟨ha, hb⟩
    · simp at h
    · exact ⟨ha, hb rfl⟩
  have m1 : ∀ x ∈ (selStageFront sorted config).2.1,
      x ∈ (selStageBusiness sorted config).2.1 :=
    fun x hx => fillSection_used_mono config.business_max true (businessPred config) sorted
      [] (selStageFront sorted config).2.1 (selStageFront sorted config).2.2 x hx
  have m2 : ∀ x ∈ (selStageBusiness sorted config).2.1,
      x ∈ (selStageSports sorted config).2.1 :=
    fun x hx => fillSection_used_mono config.sports_max true (sportsPred config) sorted
      [] (selStageBusiness sorted config).2.1 (selStageBusiness sorted config).2.2 x hx
  have m3 : ∀ x ∈ (selStageSports sorted config).2.1,
      x ∈ (selStageCulture sorted config).2.1 :=
    fun x hx => fillSection_used_mono config.culture_max true (culturePred config) sorted
      [] (selStageSports sorted config).2.1 (selStageSports sorted config).2.2 x hx
  have m4 : ∀ x ∈ (selStageCulture sorted config).2.1,
      x ∈ (selStagePersonal sorted config).2.1 :=
    fun x hx => fillSection_used_mono config.personal_max true (personalPred config) sorted
      [] (selStageCulture sorted config).2.1 (selStageCulture sorted config).2.2 x hx
  unfold SelInv IdsInUsed SelDisjoint IdDisjoint
  refine ⟨⟨?_, ?_, ?_, ?_, ?_⟩, ?_, ?_, ?_, ?_, ?_, ?_, ?_, ?_, ?_, ?_⟩
  · exact fun p hp => m4 _ (m3 _ (m2 _ (m1 _ (hfp p hp))))
  · exact fun p hp => m4 _ (m3 _ (m2 _ (hbus p hp).1))
  · exact fun p hp => m4 _ (m3 _ (hsp p hp).1)
  · exact fun p hp => m4 _ (hcu p hp).1
  · exact fun p hp => (hpe p hp).1
  · exact fun p hp q hq he => (hbus q hq).2 (he ▸ hfp p hp)
  · exact fun p hp q hq he => (hsp q hq).2 (he ▸ m1 _ (hfp p hp))
  · exact fun p hp q hq he => (hcu q hq).2 (he ▸ m2 _ (m1 _ (hfp p hp)))
  · exact fun p hp q hq he => (hpe q hq).2 (he ▸ m3 _ (m2 _ (m1 _ (hfp p hp))))
  · exact fun p hp q hq he => (hsp q hq).2 (he ▸ (hbus p hp).1)
  · exact fun p hp q hq he => (hcu q hq).2 (he ▸ m2 _ (hbus p hp).1)
  · exact fun p hp q hq he => (hpe q hq).2 (he ▸ m3 _ (m2 _ (hbus p hp).1))
  · exact fun p hp q hq he => (hcu q hq).2 (he ▸ (hsp p hp).1)
  · exact fun p hp q hq he => (hpe q hq).2 (he ▸ m3 _ (hsp p hp).1)
  · exact fun p hp q hq he => (hpe q hq).2 (he ▸ (hcu p hp).1)

/-- The section selector respects every section capacity. -/
theorem selectStoriesBySection_caps (sorted : List RankedCluster) (config : Config) :
    CapInv (selectStoriesBySection sorted config).1 config := by
  unfold CapInv
  refine ⟨?_, ?_, ?_, ?_, ?_⟩
  · exact fillSection_length_le config.front_page_max false (frontPagePred config) sorted
      [] [] 1 (by simp)
  · exact fillSection_length_le config.business_max true (businessPred config) sorted
      [] (selStageFront sorted config).2.1 (selStageFront sorted config).2.2 (by simp)
  · exact fillSection_length_le config.sports_max true (sportsPred config) sorted
      [] (selStageBusiness sorted config).2.1 (selStageBusiness sorted config).2.2 (by simp)
  · exact fillSection_length_le config.culture_max true (culturePred config) sorted
      [] (selStageSports sorted config).2.1 (selStageSports sorted config).2.2 (by simp)
  · exact fillSection_length_le config.personal_max true (personalPred config) sorted
      [] (selStageCulture sorted config).2.1 (selStageCulture sorted config).2.2 (by simp)

/-- The fallback stage preserves the exclusivity invariant. -/
theorem applyFallback_inv (config : Config) (sorted : List RankedCluster)
    (sels : Selections) (used : List String) (rank : Nat) (hinv : SelInv sels used) :
    SelInv (applyFallback config sorted sels used rank).1
      (applyFallback config sorted sels used rank).2.1 := by
  simp only [applyFallback]
  split_ifs with h1 h2
  · obtain ⟨_, hseedInv, _, _⟩ := seedFrontPage_spec
      (sorted.take (min config.front_page_max sorted.length)) sels used rank
    obtain ⟨_, hfillInv, _, _⟩ := fallbackFill_spec config sorted
      (seedFrontPage (sorted.take (min config.front_page_max sorted.length)) sels used rank).1
      (seedFrontPage (sorted.take (min config.front_page_max sorted.length)) sels used rank).2.1
      (seedFrontPage (sorted.take (min config.front_page_max sorted.length)) sels used rank).2.2
    exact hfillInv (hseedInv hinv)
  · obtain ⟨_, hfillInv, _, _⟩ := fallbackFill_spec config sorted sels used rank
    exact hfillInv hinv
  · exact hinv

/-- The fallback stage respects every section capacity. -/
theorem applyFallback_caps (config : Config) (sorted : List RankedCluster)
    (sels : Selections) (used : List String) (rank : Nat) (hcap : CapInv sels config) :
    CapInv (applyFallback config sorted sels used rank).1 config := by
  simp only [applyFallback]
  split_ifs with h1 h2
  · have hfront0 : sels.front_page.length = 0 := by
      unfold totalSelected at h2
      omega
    obtain ⟨_, _, hsecs, hlen⟩ := seedFrontPage_spec
      (sorted.take (min config.front_page_max sorted.length)) sels used rank
    have hlenFP : (seedFrontPage (sorted.take (min config.front_page_max sorted.length))
        sels used rank).1.front_page.length ≤ config.front_page_max := by
      refine le_trans hlen ?_
      rw [hfront0]
      simp only [List.length_take, Nat.zero_add]
      omega
    have hcapSeed : CapInv (seedFrontPage
        (sorted.take (min config.front_page_max sorted.length)) sels used rank).1 config := by
      obtain ⟨c1, c2, c3, c4, c5⟩ := hcap
      exact ⟨hlenFP, hsecs.1 ▸ c2, hsecs.2.1 ▸ c3, hsecs.2.2.1 ▸ c4, hsecs.2.2.2 ▸ c5⟩
    obtain ⟨_, _, hfillCap, _⟩ := fallbackFill_spec config sorted
      (seedFrontPage (sorted.take (min config.front_page_max sorted.length)) sels used rank).1
      (seedFrontPage (sorted.take (min config.front_page_max sorted.length)) sels used rank).2.1
      (seedFrontPage (sorted.take (min config.front_page_max sorted.length)) sels used rank).2.2
    exact hfillCap hcapSeed
  · obtain ⟨_, _, hfillCap, _⟩ := fallbackFill_spec config sorted sels used rank
    exact hfillCap hcap
  · exact hcap

/-- The selection-plus-fallback pipeline establishes the exclusivity
invariant. -/
theorem rankPipeline_inv (clusters : List Cluster) (weights : Weights) (config : Config) :
    SelInv (rankPipeline clusters weights config).1
      (rankPipeline clusters weights config).2.1 :=
  applyFallback_inv config (sortedClustersOf clusters weights config) _ _ _
    (selectStoriesBySection_inv (sortedClustersOf clusters weights config) config)

/-- The selection-plus-fallback pipeline respects every section capacity. -/
theorem rankPipeline_caps (clusters : List Cluster) (weights : Weights) (config : Config) :
    CapInv (rankPipeline clusters weights config).1 config :=
  applyFallback_caps config (sortedClustersOf clusters weights config) _ _ _
    (selectStoriesBySection_caps (sortedClustersOf clusters weights config) config)

/-- A surprise pick found by the scan was not in the used set. -/
theorem surpriseScan_unused (config : Config) (under used : List String)
    (l : List RankedCluster) :
    ∀ c, surpriseScan config under used l = some c → c.cluster_id ∉ used := by
  induction l with
  | nil => intro c hc; simp [surpriseScan] at hc
  | cons a rest ih =>
    intro c hc
    simp only [surpriseScan] at hc
    split_ifs at hc with h1 h2
    · exact ih c hc
    · obtain rfl := Option.some.inj hc
      simpa using h1
    · exact ih c hc

/-- A surprise pick of a run is never in the pipeline's used set. -/
theorem surprisePickOf_unused (clusters : List Cluster) (weights : Weights)
    (config : Config) :
    ∀ c, surprisePickOf clusters weights config = some c →
      c.cluster_id ∉ (rankPipeline clusters weights config).2.1 := by
  intro c hc
  simp only [surprisePickOf] at hc
  split_ifs at hc with h1
  · simp only [applySupriseQuota] at hc
    split_ifs at hc with h2
    exact surpriseScan_unused config _ _ _ c hc

/-! ## Claim C1 -/

/-- Claim C1: for every cluster, weights and configuration, the annotated
`final_score` equals the sum over the six fixed dimensions of
`dimension_score * weight` (a missing dimension score contributing 0),
plus the configured `manual_boost` constant exactly when the cluster's
`manual_boost` flag is true.  The aggregator is a total function, so a
missing score never aborts the run. -/
theorem finalScore_weighted_sum (cluster : Cluster) (weights : Weights) (config : Config) :
    (annotateCluster weights config cluster).final_score =
      ([(cluster.dimension_scores.system_shift.getD 0) * weights.system_shift,
        (cluster.dimension_scores.signal_timing.getD 0) * weights.signal_timing,
        (cluster.dimension_scores.cross_domain.getD 0) * weights.cross_domain,
        (cluster.dimension_scores.actionability.getD 0) * weights.actionability,
        (cluster.dimension_scores.evidence_quality.getD 0) * weights.evidence_quality,
        (cluster.dimension_scores.disagreement.getD 0) * weights.disagreement].sum) +
      (if cluster.manual_boost then config.manual_boost else 0) := by
  cases h : cluster.manual_boost <;>
    simp [annotateCluster, calculateFinalScore, h, List.sum_cons] <;> ring

/-! ## Claim C2 -/

/-- A cluster flagged `manual_boost` whose assertion list is empty and
whose disagreement score is 9. -/
def confidenceCexCluster : Cluster :=
  { cluster_id := "cex"
    headline := "h"
    dimension_scores :=
      { system_shift := none, signal_timing := none, cross_domain := none,
        actionability := none, evidence_quality := none, disagreement := some 9 }
    domains := []
    assertions := []
    manual_boost := true
    why_this_matters := none
    source_count := none }

/-- Claim C2 counterexample: a cluster with `manual_boost = true`, an
empty assertion list and disagreement 9 is labeled `"Contested"`, not
`"Your Signal"` — the manual-boost branch is only entered when the
assertion list is non-empty. -/
theorem confidenceLabel_cex :
    assignConfidenceLabel confidenceCexCluster true = "Contested" ∧
      ("Contested" : String) ≠ "Your Signal" := by
  constructor
  · decide
  · decide

/-- Claim C2 (amended): `assignConfidenceLabel` returns exactly one of
the six labels by first-match order, where the two manual-boost branches
additionally require a non-empty assertion list (a `manual_boost` cluster
with no assertions falls through to the score-based branches), and the
confirmed variant requires more than one assertion carrying a source
(not necessarily distinct sources). -/
theorem confidenceLabel_cases (c : Cluster) (mb : Bool) :
    ((mb ∧ 0 < c.assertions.length) ∧ 1 < sourcedAssertionCount c →
      assignConfidenceLabel c mb = "Your Signal → Confirmed") ∧
    ((mb ∧ 0 < c.assertions.length) ∧ ¬(1 < sourcedAssertionCount c) →
      assignConfidenceLabel c mb = "Your Signal") ∧
    (¬(mb ∧ 0 < c.assertions.length) ∧ 8 ≤ c.dimension_scores.disagreement.getD 0 →
      assignConfidenceLabel c mb = "Contested") ∧
    (¬(mb ∧ 0 < c.assertions.length) ∧ ¬(8 ≤ c.dimension_scores.disagreement.getD 0) ∧
        (8 ≤ c.dimension_scores.evidence_quality.getD 0 ∧
          c.dimension_scores.signal_timing.getD 0 ≤ 6) →
      assignConfidenceLabel c mb = "Confirmed Pattern") ∧
    (¬(mb ∧ 0 < c.assertions.length) ∧ ¬(8 ≤ c.dimension_scores.disagreement.getD 0) ∧
        ¬(8 ≤ c.dimension_scores.evidence_quality.getD 0 ∧
          c.dimension_scores.signal_timing.getD 0 ≤ 6) ∧
        (c.dimension_scores.evidence_quality.getD 0 ≤ 7 ∧
          8 ≤ c.dimension_scores.signal_timing.getD 0) →
      assignConfidenceLabel c mb = "Early Signal") ∧
    (¬(mb ∧ 0 < c.assertions.length) ∧ ¬(8 ≤ c.dimension_scores.disagreement.getD 0) ∧
        ¬(8 ≤ c.dimension_scores.evidence_quality.getD 0 ∧
          c.dimension_scores.signal_timing.getD 0 ≤ 6) ∧
        ¬(c.dimension_scores.evidence_quality.getD 0 ≤ 7 ∧
          8 ≤ c.dimension_scores.signal_timing.getD 0) →
      assignConfidenceLabel c mb = "Developing") ∧
    assignConfidenceLabel c mb ∈
      ["Your Signal → Confirmed", "Your Signal", "Contested", "Confirmed Pattern",
        "Early Signal", "Developing"] := by
  simp only [assignConfidenceLabel]
  split_ifs <;>
    refine ⟨?_, ?_, ?_, ?_, ?_, ?_, ?_⟩ <;>
    simp_all

/-- A cluster flagged `manual_boost` with a single sourced assertion. -/
def confidenceWitnessCluster : Cluster :=
  { cluster_id := "wit"
    headline := "h"
    dimension_scores :=
      { system_shift := none, signal_timing := none, cross_domain := none,
        actionability := none, evidence_quality := none, disagreement := none }
    domains := []
    assertions := [{ source := some ("Doug"), url := none }]
    manual_boost := true
    why_this_matters := none
    source_count := none }

/-- Witness for the amended Claim C2, at a cluster with one sourced
assertion: the second branch fires. -/
theorem confidenceLabel_cases_witness :
    assignConfidenceLabel confidenceWitnessCluster true = "Your Signal" :=
  (confidenceLabel_cases confidenceWitnessCluster true).2.1
    ⟨⟨by decide, by decide⟩, by decide⟩

/-! ## Claim C3 -/

/-- No cluster identifier is shared between two Story lists. -/
def StoryIdDisjoint (s t : List Story) : Prop :=
  ∀ p ∈ s, ∀ q ∈ t, p.cluster_id ≠ q.cluster_id

/-- All five section arrays of a Selection, concatenated. -/
def allSectionStories (d : DailySelections) : List Story :=
  d.front_page ++ d.business ++ d.sports ++ d.culture ++ d.personal

/-- Building Story records preserves identifier-disjointness. -/
theorem storyDisjoint_of_placed (s t : List PlacedCluster) (h : IdDisjoint s t) :
    StoryIdDisjoint (s.map fun x => buildSelectedStory x.toRankedCluster x.rank)
      (t.map fun x => buildSelectedStory x.toRankedCluster x.rank) := by
  intro p hp q hq
  obtain ⟨x, hx, rfl⟩ := List.mem_map.mp hp
  obtain ⟨y, hy, rfl⟩ := List.mem_map.mp hq
  exact h x hx y hy

/-- Claim C3: in the final Selection — after section selection, fallback
fill and surprise injection — no cluster identifier appears in more than
one section, and the surprise pick's identifier appears in no section. -/
theorem rankStories_exclusive (clusters : List Cluster) (weights : Weights)
    (config : Config) (d : DailySelections)
    (hd : d = (rankStories clusters weights config).daily_selections) :
    (StoryIdDisjoint d.front_page d.business ∧ StoryIdDisjoint d.front_page d.sports ∧
      StoryIdDisjoint d.front_page d.culture ∧ StoryIdDisjoint d.front_page d.personal ∧
      StoryIdDisjoint d.business d.sports ∧ StoryIdDisjoint d.business d.culture ∧
      StoryIdDisjoint d.business d.personal ∧ StoryIdDisjoint d.sports d.culture ∧
      StoryIdDisjoint d.sports d.personal ∧ StoryIdDisjoint d.culture d.personal) ∧
    (∀ s, d.surprise_pick = some s →
      ∀ q ∈ allSectionStories d, s.cluster_id ≠ q.cluster_id) := by
  subst hd
  obtain ⟨⟨i1, i2, i3, i4, i5⟩, hd1, hd2, hd3, hd4, hd5, hd6, hd7, hd8, hd9, hd10⟩ :=
    rankPipeline_inv clusters weights config
  have hfp : (rankStories clusters weights config).daily_selections.front_page =
      (rankPipeline clusters weights config).1.front_page.map
        (fun s => buildSelectedStory s.toRankedCluster s.rank) := rfl
  have hbu : (rankStories clusters weights config).daily_selections.business =
      (rankPipeline clusters weights config).1.business.map
        (fun s => buildSelectedStory s.toRankedCluster s.rank) := rfl
  have hsp : (rankStories clusters weights config).daily_selections.sports =
      (rankPipeline clusters weights config).1.sports.map
        (fun s => buildSelectedStory s.toRankedCluster s.rank) := rfl
  have hcu : (rankStories clusters weights config).daily_selections.culture =
      (rankPipeline clusters weights config).1.culture.map
        (fun s => buildSelectedStory s.toRankedCluster s.rank) := rfl
  have hpe : (rankStories clusters weights config).daily_selections.personal =
      (rankPipeline clusters weights config).1.personal.map
        (fun s => buildSelectedStory s.toRankedCluster s.rank) := rfl
  constructor
  · rw [hfp, hbu, hsp, hcu, hpe]
    exact ⟨storyDisjoint_of_placed _ _ hd1, storyDisjoint_of_placed _ _ hd2,
      storyDisjoint_of_placed _ _ hd3, storyDisjoint_of_placed _ _ hd4,
      storyDisjoint_of_placed _ _ hd5, storyDisjoint_of_placed _ _ hd6,
      storyDisjoint_of_placed _ _ hd7, storyDisjoint_of_placed _ _ hd8,
      storyDisjoint_of_placed _ _ hd9, storyDisjoint_of_placed _ _ hd10⟩
  · intro s hs q hq
    have hmap : (rankStories clusters weights config).daily_selections.surprise_pick =
        (surprisePickOf clusters weights config).map
          (fun c => buildSelectedStory c (rankPipeline clusters weights config).2.2) := rfl
    rw [hmap] at hs
    obtain ⟨c, hc, rfl⟩ := Option.map_eq_some'.mp hs
    have hunused := surprisePickOf_unused clusters weights config c hc
    unfold allSectionStories at hq
    rw [hfp, hbu, hsp, hcu, hpe] at hq
    simp only [List.mem_append] at hq
    rcases hq with ((((hq | hq) | hq) | hq) | hq) <;>
      obtain ⟨y, hy, rfl⟩ := List.mem_map.mp hq
    · intro he
      have he' : c.cluster_id = y.cluster_id := he
      exact hunused (he' ▸ i1 y hy)
    · intro he
      have he' : c.cluster_id = y.cluster_id := he
      exact hunused (he' ▸ i2 y hy)
    · intro he
      have he' : c.cluster_id = y.cluster_id := he
      exact hunused (he' ▸ i3 y hy)
    · intro he
      have he' : c.cluster_id = y.cluster_id := he
      exact hunused (he' ▸ i4 y hy)
    · intro he
      have he' : c.cluster_id = y.cluster_id := he
      exact hunused (he' ▸ i5 y hy)

/-- Witness for Claim C3 at the empty input list. -/
theorem rankStories_exclusive_witness :
    StoryIdDisjoint
      (rankStories [] DEFAULT_WEIGHTS DEFAULT_CONFIG).daily_selections.front_page
      (rankStories [] DEFAULT_WEIGHTS DEFAULT_CONFIG).daily_selections.business :=
  (rankStories_exclusive [] DEFAULT_WEIGHTS DEFAULT_CONFIG _ rfl).1.1

/-! ## Claim C4 -/

/-- Claim C4: in the final Selection, every section (including stories
added by the fallback filler) holds at most its configured capacity. -/
theorem rankStories_caps (clusters : List Cluster) (weights : Weights) (config : Config) :
    (rankStories clusters weights config).daily_selections.front_page.length ≤
      config.front_page_max ∧
    (rankStories clusters weights config).daily_selections.business.length ≤
      config.business_max ∧
    (rankStories clusters weights config).daily_selections.sports.length ≤
      config.sports_max ∧
    (rankStories clusters weights config).daily_selections.culture.length ≤
      config.culture_max ∧
    (rankStories clusters weights config).daily_selections.personal.length ≤
      config.personal_max := by
  obtain ⟨c1, c2, c3, c4, c5⟩ := rankPipeline_caps clusters weights config
  have hfp : (rankStories clusters weights config).daily_selections.front_page =
      (rankPipeline clusters weights config).1.front_page.map
        (fun s => buildSelectedStory s.toRankedCluster s.rank) := rfl
  have hbu : (rankStories clusters weights config).daily_selections.business =
      (rankPipeline clusters weights config).1.business.map
        (fun s => buildSelectedStory s.toRankedCluster s.rank) := rfl
  have hsp : (rankStories clusters weights config).daily_selections.sports =
      (rankPipeline clusters weights config).1.sports.map
        (fun s => buildSelectedStory s.toRankedCluster s.rank) := rfl
  have hcu : (rankStories clusters weights config).daily_selections.culture =
      (rankPipeline clusters weights config).1.culture.map
        (fun s => buildSelectedStory s.toRankedCluster s.rank) := rfl
  have hpe : (rankStories clusters weights config).daily_selections.personal =
      (rankPipeline clusters weights config).1.personal.map
        (fun s => buildSelectedStory s.toRankedCluster s.rank) := rfl
  rw [hfp, hbu, hsp, hcu, hpe]
  simp only [List.length_map]
  exact ⟨c1, c2, c3, c4, c5⟩

/-! ## Claim C6 -/

/-- A selector pass admits nothing when every cluster's score is below
every section threshold. -/
theorem selector_empty_of_below_thresholds (sorted : List RankedCluster) (config : Config)
    (h : ∀ c ∈ sorted,
      c.final_score < config.threshold_front_page ∧
      c.final_score < config.threshold_business ∧
      c.final_score < config.threshold_sports ∧
      c.final_score < config.threshold_culture ∧
      c.final_score < config.threshold_personal) :
    selectStoriesBySection sorted config = (emptySelections, [], 1) := by
  have hf : ∀ c ∈ sorted, frontPagePred config c = false := by
    intro c hc
    simp only [frontPagePred, decide_eq_false_iff_not]
    exact not_le.mpr (h c hc).1
  have hb : ∀ c ∈ sorted, businessPred config c = false := by
    intro c hc
    have hd : decide (config.threshold_business ≤ c.final_score) = false :=
      decide_eq_false (not_le.mpr (h c hc).2.1)
    simp [businessPred, hd]
  have hs : ∀ c ∈ sorted, sportsPred config c = false := by
    intro c hc
    have hd : decide (config.threshold_sports ≤ c.final_score) = false :=
      decide_eq_false (not_le.mpr (h c hc).2.2.1)
    simp [sportsPred, hd]
  have hcul : ∀ c ∈ sorted, culturePred config c = false := by
    intro c hc
    have hd : decide (config.threshold_culture ≤ c.final_score) = false :=
      decide_eq_false (not_le.mpr (h c hc).2.2.2.1)
    simp [culturePred, hd]
  have hp : ∀ c ∈ sorted, personalPred config c = false := by
    intro c hc
    have hd : decide (config.threshold_personal ≤ c.final_score) = false :=
      decide_eq_false (not_le.mpr (h c hc).2.2.2.2)
    simp [personalPred, hd]
  have h1 : selStageFront sorted config = ([], [], 1) :=
    fillSection_no_admit config.front_page_max false (frontPagePred config) sorted hf [] [] 1
  have h2 : selStageBusiness sorted config = ([], [], 1) := by
    unfold selStageBusiness
    rw [h1]
    exact fillSection_no_admit config.business_max true (businessPred config) sorted hb [] [] 1
  have h3 : selStageSports sorted config = ([], [], 1) := by
    unfold selStageSports
    rw [h2]
    exact fillSection_no_admit config.sports_max true (sportsPred config) sorted hs [] [] 1
  have h4 : selStageCulture sorted config = ([], [], 1) := by
    unfold selStageCulture
    rw [h3]
    exact fillSection_no_admit config.culture_max true (culturePred config) sorted hcul [] [] 1
  have h5 : selStagePersonal sorted config = ([], [], 1) := by
    unfold selStagePersonal
    rw [h4]
    exact fillSection_no_admit config.personal_max true (personalPred config) sorted hp [] [] 1
  unfold selectStoriesBySection
  rw [h1, h2, h3, h4, h5]
  rfl

/-- Clusters scoring 6 on every dimension in every domainless cluster:
above the lowest section threshold but admitted nowhere. -/
def mkScoredCluster (id : String) (v : ℚ) (doms : List String) : Cluster :=
  { cluster_id := id
    headline := id
    dimension_scores :=
      { system_shift := some v, signal_timing := some v, cross_domain := some v,
        actionability := some v, evidence_quality := some v, disagreement := some v }
    domains := doms
    assertions := []
    manual_boost := false
    why_this_matters := none
    source_count := none }

/-- Eight domainless clusters whose final score (6) clears the lowest
section threshold (5) but no section admission. -/
def c6Clusters : List Cluster :=
  [mkScoredCluster ("a") 6 [], mkScoredCluster ("b") 6 [], mkScoredCluster ("c") 6 [],
   mkScoredCluster ("d") 6 [], mkScoredCluster ("e") 6 [], mkScoredCluster ("f") 6 [],
   mkScoredCluster ("g") 6 [], mkScoredCluster ("h") 6 []]

/-- Claim C6 counterexample: eight clusters (`min_total_stories` many)
score 6, strictly above the lowest section threshold 5, yet the fallback
filler runs and fills five of them into the front page while the plain
Section Selector output is empty — the final sections do not equal the
selector output. -/
theorem fallback_triggers_cex :
    DEFAULT_CONFIG.min_total_stories ≤
      ((annotateAll c6Clusters DEFAULT_WEIGHTS DEFAULT_CONFIG).filter
        (fun c => decide (min DEFAULT_CONFIG.threshold_front_page
          (min DEFAULT_CONFIG.threshold_business (min DEFAULT_CONFIG.threshold_sports
            (min DEFAULT_CONFIG.threshold_culture DEFAULT_CONFIG.threshold_personal)))
          < c.final_score))).length ∧
    (rankStories c6Clusters DEFAULT_WEIGHTS DEFAULT_CONFIG).daily_selections.front_page.length
      = 5 ∧
    ((selectStoriesBySection (sortedClustersOf c6Clusters DEFAULT_WEIGHTS DEFAULT_CONFIG)
        DEFAULT_CONFIG).1.front_page.map
      (fun s => buildSelectedStory s.toRankedCluster s.rank)).length = 0 := by
  refine ⟨by with_unfolding_all decide, by with_unfolding_all decide,
    by with_unfolding_all decide⟩

/-- Claim C6 (amended): whenever the plain Section Selector output
already holds at least `min_total_stories` stories, the Fallback Filler
never triggers and the final sections equal the Section Selector output
(rendered as Story records).  Clearing the lowest section threshold is
not sufficient: a cluster also needs a matching section domain, so
fallback can trigger even when `min_total_stories` clusters score above
the lowest threshold. -/
theorem rankStories_no_fallback (clusters : List Cluster) (weights : Weights)
    (config : Config)
    (h : config.min_total_stories ≤ totalSelected
      (selectStoriesBySection (sortedClustersOf clusters weights config) config).1) :
    (rankStories clusters weights config).daily_selections.front_page =
      (selectStoriesBySection (sortedClustersOf clusters weights config) config).1.front_page.map
        (fun s => buildSelectedStory s.toRankedCluster s.rank) ∧
    (rankStories clusters weights config).daily_selections.business =
      (selectStoriesBySection (sortedClustersOf clusters weights config) config).1.business.map
        (fun s => buildSelectedStory s.toRankedCluster s.rank) ∧
    (rankStories clusters weights config).daily_selections.sports =
      (selectStoriesBySection (sortedClustersOf clusters weights config) config).1.sports.map
        (fun s => buildSelectedStory s.toRankedCluster s.rank) ∧
    (rankStories clusters weights config).daily_selections.culture =
      (selectStoriesBySection (sortedClustersOf clusters weights config) config).1.culture.map
        (fun s => buildSelectedStory s.toRankedCluster s.rank) ∧
    (rankStories clusters weights config).daily_selections.personal =
      (selectStoriesBySection (sortedClustersOf clusters weights config) config).1.personal.map
        (fun s => buildSelectedStory s.toRankedCluster s.rank) := by
  have hpipe : rankPipeline clusters weights config =
      selectStoriesBySection (sortedClustersOf clusters weights config) config := by
    simp only [rankPipeline, applyFallback]
    rw [if_neg]
    rintro ⟨h1, _⟩
    omega
  have hfp : (rankStories clusters weights config).daily_selections.front_page =
      (rankPipeline clusters weights config).1.front_page.map
        (fun s => buildSelectedStory s.toRankedCluster s.rank) := rfl
  have hbu : (rankStories clusters weights config).daily_selections.business =
      (rankPipeline clusters weights config).1.business.map
        (fun s => buildSelectedStory s.toRankedCluster s.rank) := rfl
  have hsp : (rankStories clusters weights config).daily_selections.sports =
      (rankPipeline clusters weights config).1.sports.map
        (fun s => buildSelectedStory s.toRankedCluster s.rank) := rfl
  have hcu : (rankStories clusters weights config).daily_selections.culture =
      (rankPipeline clusters weights config).1.culture.map
        (fun s => buildSelectedStory s.toRankedCluster s.rank) := rfl
  have hpe : (rankStories clusters weights config).daily_selections.personal =
      (rankPipeline clusters weights config).1.personal.map
        (fun s => buildSelectedStory s.toRankedCluster s.rank) := rfl
  rw [hfp, hbu, hsp, hcu, hpe, hpipe]
  exact ⟨rfl, rfl, rfl, rfl, rfl⟩

/-- One cluster clearing the front-page threshold, under a configuration
demanding a single story. -/
def c6WitnessConfig : Config :=
  { DEFAULT_CONFIG with min_total_stories := 1 }

/-- Witness for the amended Claim C6: with one front-page-worthy cluster
and `min_total_stories = 1`, the final front page equals the selector
output. -/
theorem rankStories_no_fallback_witness :
    (rankStories [mkScoredCluster ("a") 9 []] DEFAULT_WEIGHTS
        c6WitnessConfig).daily_selections.front_page =
      (selectStoriesBySection
        (sortedClustersOf [mkScoredCluster ("a") 9 []] DEFAULT_WEIGHTS c6WitnessConfig)
        c6WitnessConfig).1.front_page.map
        (fun s => buildSelectedStory s.toRankedCluster s.rank) :=
  (rankStories_no_fallback [mkScoredCluster ("a") 9 []] DEFAULT_WEIGHTS c6WitnessConfig
    (by with_unfolding_all decide)).1

/-! ## Claim C5 -/

/-- A cluster with no dimension scores and no domains. -/
def mkBareCluster (id : String) : Cluster :=
  { cluster_id := id
    headline := id
    dimension_scores :=
      { system_shift := none, signal_timing := none, cross_domain := none,
        actionability := none, evidence_quality := none, disagreement := none }
    domains := []
    assertions := []
    manual_boost := false
    why_this_matters := none
    source_count := none }

/-- Six domainless, scoreless clusters. -/
def c5Clusters : List Cluster :=
  [mkBareCluster ("a"), mkBareCluster ("b"), mkBareCluster ("c"),
   mkBareCluster ("d"), mkBareCluster ("e"), mkBareCluster ("f")]

/-- Claim C5 counterexample: with six available clusters none of which
clears any section threshold, the final story count is 5 (the front-page
capacity reached by seeding), not `min(min_total_stories, 6) = 6` — the
fill loop cannot place domainless clusters once the front page is full. -/
theorem fallback_min_cex :
    ((annotateAll c5Clusters DEFAULT_WEIGHTS DEFAULT_CONFIG).filter
        (fun c => decide (DEFAULT_CONFIG.threshold_front_page ≤ c.final_score) ||
          decide (DEFAULT_CONFIG.threshold_business ≤ c.final_score) ||
          decide (DEFAULT_CONFIG.threshold_sports ≤ c.final_score) ||
          decide (DEFAULT_CONFIG.threshold_culture ≤ c.final_score) ||
          decide (DEFAULT_CONFIG.threshold_personal ≤ c.final_score))).length
      < DEFAULT_CONFIG.min_total_stories ∧
    (rankStories c5Clusters DEFAULT_WEIGHTS DEFAULT_CONFIG).total_stories = 5 ∧
    min DEFAULT_CONFIG.min_total_stories c5Clusters.length = 6 := by
  refine ⟨by with_unfolding_all decide, by with_unfolding_all decide,
    by with_unfolding_all decide⟩

/-- The five section-length contributions never exceed the reported
total story count. -/
theorem totalSelected_le_totalStories (clusters : List Cluster) (weights : Weights)
    (config : Config) :
    totalSelected (rankPipeline clusters weights config).1 ≤
      (rankStories clusters weights config).total_stories := by
  have h0 : (rankStories clusters weights config).total_stories =
      totalStories (rankStories clusters weights config).daily_selections := rfl
  rw [h0, totalStories_eq]
  have e1 : (rankStories clusters weights config).daily_selections.front_page.length =
      (rankPipeline clusters weights config).1.front_page.length := by
    rw [show (rankStories clusters weights config).daily_selections.front_page =
      (rankPipeline clusters weights config).1.front_page.map
        (fun s => buildSelectedStory s.toRankedCluster s.rank) from rfl]
    exact List.length_map _ _
  have e2 : (rankStories clusters weights config).daily_selections.business.length =
      (rankPipeline clusters weights config).1.business.length := by
    rw [show (rankStories clusters weights config).daily_selections.business =
      (rankPipeline clusters weights config).1.business.map
        (fun s => buildSelectedStory s.toRankedCluster s.rank) from rfl]
    exact List.length_map _ _
  have e3 : (rankStories clusters weights config).daily_selections.sports.length =
      (rankPipeline clusters weights config).1.sports.length := by
    rw [show (rankStories clusters weights config).daily_selections.sports =
      (rankPipeline clusters weights config).1.sports.map
        (fun s => buildSelectedStory s.toRankedCluster s.rank) from rfl]
    exact List.length_map _ _
  have e4 : (rankStories clusters weights config).daily_selections.culture.length =
      (rankPipeline clusters weights config).1.culture.length := by
    rw [show (rankStories clusters weights config).daily_selections.culture =
      (rankPipeline clusters weights config).1.culture.map
        (fun s => buildSelectedStory s.toRankedCluster s.rank) from rfl]
    exact List.length_map _ _
  have e5 : (rankStories clusters weights config).daily_selections.personal.length =
      (rankPipeline clusters weights config).1.personal.length := by
    rw [show (rankStories clusters weights config).daily_selections.personal =
      (rankPipeline clusters weights config).1.personal.map
        (fun s => buildSelectedStory s.toRankedCluster s.rank) from rfl]
    exact List.length_map _ _
  rw [e1, e2, e3, e4, e5]
  unfold totalSelected
  exact Nat.le_add_right _ _

/-- Claim C5 (amended): when no cluster clears any section threshold
(and identifiers are distinct, with a positive minimum), the final story
count reaches at least `min(front_page_max, total available clusters)` —
the front-page seeding guarantee.  It does not in general reach
`min(min_total_stories, total available clusters)`: a cluster with no
section-matching domain can only be placed on the front page, so the
count can stall at the front-page capacity. -/
theorem fallback_seeds_front (clusters : List Cluster) (weights : Weights) (config : Config)
    (hthr : ∀ cl ∈ clusters,
      (annotateCluster weights config cl).final_score < config.threshold_front_page ∧
      (annotateCluster weights config cl).final_score < config.threshold_business ∧
      (annotateCluster weights config cl).final_score < config.threshold_sports ∧
      (annotateCluster weights config cl).final_score < config.threshold_culture ∧
      (annotateCluster weights config cl).final_score < config.threshold_personal)
    (hnd : (clusters.map (fun cl => cl.cluster_id)).Nodup)
    (hmin : 0 < config.min_total_stories) :
    min config.front_page_max clusters.length ≤
      (rankStories clusters weights config).total_stories := by
  rcases Nat.eq_zero_or_pos clusters.length with hn | hn
  · simp [hn]
  have hbelow : ∀ c ∈ sortedClustersOf clusters weights config,
      c.final_score < config.threshold_front_page ∧
      c.final_score < config.threshold_business ∧
      c.final_score < config.threshold_sports ∧
      c.final_score < config.threshold_culture ∧
      c.final_score < config.threshold_personal := by
    intro c hc
    have hc' : c ∈ annotateAll clusters weights config := List.mem_mergeSort.mp hc
    obtain ⟨cl, hcl, heq⟩ := List.mem_map.mp hc'
    exact heq ▸ hthr cl hcl
  have hsel := selector_empty_of_below_thresholds (sortedClustersOf clusters weights config)
    config hbelow
  have hlen : (sortedClustersOf clusters weights config).length = clusters.length := by
    simp [sortedClustersOf, annotateAll]
  have hpipe : rankPipeline clusters weights config =
      applyFallback config (sortedClustersOf clusters weights config) emptySelections [] 1 := by
    simp only [rankPipeline]
    rw [hsel]
  have hids : ((sortedClustersOf clusters weights config).map
      (fun c => c.cluster_id)).Nodup := by
    have hperm : List.Perm (sortedClustersOf clusters weights config)
        (annotateAll clusters weights config) := List.mergeSort_perm _ _
    have hann : (annotateAll clusters weights config).map (fun c => c.cluster_id) =
        clusters.map (fun cl => cl.cluster_id) := by
      simp [annotateAll, List.map_map]
      intro a _
      rfl
    exact ((hperm.map _).nodup_iff).mpr (hann ▸ hnd)
  have hndTake : (((sortedClustersOf clusters weights config).take
      (min config.front_page_max (sortedClustersOf clusters weights config).length)).map
        (fun c => c.cluster_id)).Nodup := by
    rw [List.map_take]
    exact hids.sublist (List.take_sublist _ _)
  have hfresh : ∀ c ∈ (sortedClustersOf clusters weights config).take
      (min config.front_page_max (sortedClustersOf clusters weights config).length),
      c.cluster_id ∉ ([] : List String) := by
    intro c _ hmem
    simp at hmem
  have hcount := seedFrontPage_count
    ((sortedClustersOf clusters weights config).take
      (min config.front_page_max (sortedClustersOf clusters weights config).length))
    emptySelections [] 1 hfresh hndTake
  obtain ⟨_, _, hsecs, _⟩ := seedFrontPage_spec
    ((sortedClustersOf clusters weights config).take
      (min config.front_page_max (sortedClustersOf clusters weights config).length))
    emptySelections [] 1
  have hseedTot : totalSelected (seedFrontPage
      ((sortedClustersOf clusters weights config).take
        (min config.front_page_max (sortedClustersOf clusters weights config).length))
      emptySelections [] 1).1 =
      min config.front_page_max (sortedClustersOf clusters weights config).length := by
    unfold totalSelected
    rw [hcount, hsecs.1, hsecs.2.1, hsecs.2.2.1, hsecs.2.2.2]
    simp [emptySelections, List.length_take]
  have hcond : totalSelected emptySelections < config.min_total_stories ∧
      0 < (sortedClustersOf clusters weights config).length := ⟨hmin, by omega⟩
  have happly : applyFallback config (sortedClustersOf clusters weights config)
      emptySelections [] 1 =
      fallbackFill config (sortedClustersOf clusters weights config)
        (seedFrontPage ((sortedClustersOf clusters weights config).take
          (min config.front_page_max (sortedClustersOf clusters weights config).length))
          emptySelections [] 1).1
        (seedFrontPage ((sortedClustersOf clusters weights config).take
          (min config.front_page_max (sortedClustersOf clusters weights config).length))
          emptySelections [] 1).2.1
        (seedFrontPage ((sortedClustersOf clusters weights config).take
          (min config.front_page_max (sortedClustersOf clusters weights config).length))
          emptySelections [] 1).2.2 := by
    simp only [applyFallback]
    rw [if_pos hcond, if_pos (show totalSelected emptySelections = 0 from rfl)]
  obtain ⟨_, _, _, hmono⟩ := fallbackFill_spec config (sortedClustersOf clusters weights config)
    (seedFrontPage ((sortedClustersOf clusters weights config).take
      (min config.front_page_max (sortedClustersOf clusters weights config).length))
      emptySelections [] 1).1
    (seedFrontPage ((sortedClustersOf clusters weights config).take
      (min config.front_page_max (sortedClustersOf clusters weights config).length))
      emptySelections [] 1).2.1
    (seedFrontPage ((sortedClustersOf clusters weights config).take
      (min config.front_page_max (sortedClustersOf clusters weights config).length))
      emptySelections [] 1).2.2
  have hfinal := totalSelected_le_totalStories clusters weights config
  rw [hpipe, happly] at hfinal
  rw [hseedTot] at hmono
  omega

/-- Two bare clusters under the default configuration. -/
def c5WitnessClusters : List Cluster := [mkBareCluster ("x"), mkBareCluster ("y")]

/-- Witness for the amended Claim C5: two scoreless clusters still yield
`min(front_page_max, 2) = 2` stories. -/
theorem fallback_seeds_front_witness :
    min DEFAULT_CONFIG.front_page_max c5WitnessClusters.length ≤
      (rankStories c5WitnessClusters DEFAULT_WEIGHTS DEFAULT_CONFIG).total_stories :=
  fallback_seeds_front c5WitnessClusters DEFAULT_WEIGHTS DEFAULT_CONFIG
    (by intro cl hcl; fin_cases hcl <;> refine ⟨?_, ?_, ?_, ?_, ?_⟩ <;>
      with_unfolding_all decide)
    (by with_unfolding_all decide) (by decide)

/-! ## Claim C7 -/

/-- A surprise pick returned by the scan satisfies the admission
predicate and is the first cluster of the list to do so. -/
theorem surpriseScan_first (config : Config) (under used : List String)
    (l : List RankedCluster) :
    ∀ c, surpriseScan config under used l = some c →
      surprisePredB config under used c = true ∧
      ∃ lOne lTwo, l = lOne ++ c :: lTwo ∧
        ∀ x ∈ lOne, surprisePredB config under used x = false := by
  induction l with
  | nil => intro c hc; simp [surpriseScan] at hc
  | cons a rest ih =>
    intro c hc
    simp only [surpriseScan] at hc
    split_ifs at hc with h1 h2
    · obtain ⟨hpred, lOne, lTwo, heq, hall⟩ := ih c hc
      refine ⟨hpred, a :: lOne, lTwo, by rw [heq]; rfl, ?_⟩
      intro x hx
      rcases List.mem_cons.mp hx with rfl | hx'
      · simp only [surprisePredB, h1, Bool.not_true, Bool.false_and]
      · exact hall x hx'
    · obtain rfl := Option.some.inj hc
      have h1' : used.contains a.cluster_id = false := by simpa using h1
      refine ⟨?_, [], rest, rfl, by simp⟩
      simp only [surprisePredB, h1', Bool.not_false, Bool.true_and]
      exact h2
    · obtain ⟨hpred, lOne, lTwo, heq, hall⟩ := ih c hc
      have h2' : ((a.domains.any fun d => under.contains d) &&
          decide (config.surprise_quota_threshold ≤ a.final_score)) = false := by
        simpa using h2
      refine ⟨hpred, a :: lOne, lTwo, by rw [heq]; rfl, ?_⟩
      intro x hx
      rcases List.mem_cons.mp hx with rfl | hx'
      · simp only [surprisePredB, h2', Bool.and_false]
      · exact hall x hx'

/-- The sorted cluster list is ordered by non-increasing final score. -/
theorem sortedClustersOf_sorted (clusters : List Cluster) (weights : Weights)
    (config : Config) :
    (sortedClustersOf clusters weights config).Pairwise
      (fun a b => b.final_score ≤ a.final_score) := by
  have h : ((annotateAll clusters weights config).mergeSort
      (fun a b => decide (b.final_score ≤ a.final_score))).Pairwise
      (fun a b => decide (b.final_score ≤ a.final_score) = true) := by
    apply List.sorted_mergeSort
    · intro a b c hab hbc
      simp only [decide_eq_true_eq] at hab hbc ⊢
      exact le_trans hbc hab
    · intro a b
      simp only [Bool.or_eq_true, decide_eq_true_eq]
      exact le_total _ _
  exact h.imp (fun hab => by simpa using hab)

/-- Claim C7: the surprise pick is non-null only when at most two
distinct domains are represented among the selected stories before
injection (and always null from three domains up); when non-null it is
the first unused cluster of the descending-score-sorted list whose
domain set meets the pool domains absent from the selection and whose
score meets the surprise threshold.  Being a single `Option`, at most
one surprise pick exists per run. -/
theorem surprise_pick_props (clusters : List Cluster) (weights : Weights) (config : Config) :
    (3 ≤ (selectedDomainsOf (rankPipeline clusters weights config).1).length →
      surprisePickOf clusters weights config = none) ∧
    (∀ c, surprisePickOf clusters weights config = some c →
      (selectedDomainsOf (rankPipeline clusters weights config).1).length ≤ 2 ∧
      surprisePredB config
        ((allDomainsOf (sortedClustersOf clusters weights config)).filter
          (fun d => !((selectedDomainsOf (rankPipeline clusters weights config).1).contains d)))
        (rankPipeline clusters weights config).2.1 c = true ∧
      ∃ lOne lTwo, sortedClustersOf clusters weights config = lOne ++ c :: lTwo ∧
        ∀ x ∈ lOne, surprisePredB config
          ((allDomainsOf (sortedClustersOf clusters weights config)).filter
            (fun d => !((selectedDomainsOf (rankPipeline clusters weights config).1).contains d)))
          (rankPipeline clusters weights config).2.1 x = false) ∧
    (sortedClustersOf clusters weights config).Pairwise
      (fun a b => b.final_score ≤ a.final_score) := by
  refine ⟨?_, ?_, sortedClustersOf_sorted clusters weights config⟩
  · intro h3
    simp only [surprisePickOf]
    split_ifs with h1
    · simp only [applySupriseQuota]
      rw [if_neg (by omega)]
    · rfl
  · intro c hc
    simp only [surprisePickOf] at hc
    split_ifs at hc with h1
    simp only [applySupriseQuota] at hc
    split_ifs at hc with h2
    obtain ⟨hp, lOne, lTwo, he, hall⟩ := surpriseScan_first config _ _ _ c hc
    exact ⟨h2, hp, lOne, lTwo, he, hall⟩

/-- Configuration demanding a single story, so the fallback never runs
in the witness scenario. -/
def c7Config : Config :=
  { DEFAULT_CONFIG with min_total_stories := 1 }

/-- One front-page story in domain `ai` and one unused cluster in domain
`crypto`, which qualifies as the surprise pick. -/
def c7Clusters : List Cluster :=
  [mkScoredCluster ("a") 9 [("ai")], mkScoredCluster ("b") 6 [("crypto")]]

/-- Witness for Claim C7 at a run that produces a surprise pick. -/
theorem surprise_pick_props_witness :
    (selectedDomainsOf (rankPipeline c7Clusters DEFAULT_WEIGHTS c7Config).1).length ≤ 2 :=
  ((surprise_pick_props c7Clusters DEFAULT_WEIGHTS c7Config).2.1
    (annotateCluster DEFAULT_WEIGHTS c7Config (mkScoredCluster ("b") 6 [("crypto")]))
    (by with_unfolding_all decide)).1

/-! ## Claim C10 -/

/-- Claim C10: the `total_stories` field of the result equals the sum of
the five section lengths, plus exactly one more when `surprise_pick` is
non-null — the surprise pick is counted inside `total_stories`. -/
theorem totalStories_counts_surprise (clusters : List Cluster) (weights : Weights)
    (config : Config) :
    (rankStories clusters weights config).total_stories =
      (rankStories clusters weights config).daily_selections.front_page.length +
      (rankStories clusters weights config).daily_selections.business.length +
      (rankStories clusters weights config).daily_selections.sports.length +
      (rankStories clusters weights config).daily_selections.culture.length +
      (rankStories clusters weights config).daily_selections.personal.length +
      (if (rankStories clusters weights config).daily_selections.surprise_pick.isSome
        then 1 else 0) := by
  have h : (rankStories clusters weights config).total_stories
      = totalStories (rankStories clusters weights config).daily_selections := rfl
  rw [h, totalStories_eq]

/-! ## Claim C8 -/

/-- All six dimension weights respect the 0.01 floor. -/
abbrev allAtLeastFloor (w : Weights) : Prop :=
  0.01 ≤ w.system_shift ∧ 0.01 ≤ w.signal_timing ∧ 0.01 ≤ w.cross_domain ∧
    0.01 ≤ w.actionability ∧ 0.01 ≤ w.evidence_quality ∧ 0.01 ≤ w.disagreement

/-- The clamped raw adjustment is bounded by 0.02 in absolute value. -/
theorem clampedAdjustment_abs_le (impact : ℤ) :
    |clampedAdjustment impact| ≤ 0.02 := by
  unfold clampedAdjustment
  rw [abs_le]
  refine ⟨le_max_left _ _, max_le (by norm_num) (min_le_left _ _)⟩

/-- An adjusted weight respects the floor when the incoming weight does. -/
theorem adjustWeight_floor (feedback : List FeedbackEntry) (key : String) (w : ℚ)
    (h : 0.01 ≤ w) : 0.01 ≤ adjustWeight feedback key w := by
  simp only [adjustWeight]
  split_ifs
  · exact le_max_left _ _
  · exact h

/-- Renormalization produces weights summing to exactly 1 when the
pre-normalization total is positive. -/
theorem weightsSum_normalize (w : Weights) (h : 0 < weightsSum w) :
    weightsSum (normalizeWeights w) = 1 := by
  unfold normalizeWeights
  rw [if_pos h]
  unfold weightsSum at h ⊢
  field_simp

/-- Weights at the dimension-term of a feedback-cex run: one weight at the
floor, the rest sharing the remaining mass. -/
def adapterCexWeights : Weights :=
  { system_shift := 1/100
    signal_timing := 99/500
    cross_domain := 99/500
    actionability := 99/500
    evidence_quality := 99/500
    disagreement := 99/500 }

/-- One positive reaction whose stored domain string happens to equal the
`signal_timing` dimension name. -/
def adapterCexFeedback : List FeedbackEntry :=
  [{ story_id := "s1", reaction := "👍", story_domains := ["signal_timing"] }]

/-- Claim C8 counterexample: a run with one positive feedback entry on a
store whose weights all respect the 0.01 floor and sum to 1 leaves
`system_shift` strictly below 0.01 after renormalization — the floor is
applied before dividing by the post-adjustment total 1.01. -/
theorem adapter_floor_cex :
    0 < (adapterCexFeedback.filter (fun e => e.reaction == ("👍"))).length ∧
      allAtLeastFloor adapterCexWeights ∧ weightsSum adapterCexWeights = 1 ∧
      (updateWeightsFromFeedback adapterCexFeedback adapterCexWeights).store.system_shift
        < 0.01 := by
  refine ⟨by decide, by with_unfolding_all decide, by with_unfolding_all decide,
    by with_unfolding_all decide⟩

/-- Claim C8 (amended): after every Weight Adapter run that processes at
least one positive or negative feedback entry, each per-dimension
adjustment applied before renormalization has absolute value at most
0.02, and — provided the incoming weights respect the 0.01 floor — every
dimension weight is at least 0.01 after adjustment but before
renormalization, and the six renormalized dimension weights (excluding
`manual_boost`) sum to exactly 1.  The floor is not maintained after
renormalization. -/
theorem adapter_bounds (feedback : List FeedbackEntry) (w : Weights)
    (hfb : 0 < (feedback.filter (fun e => e.reaction == ("👍"))).length +
        (feedback.filter (fun e => e.reaction == ("👎"))).length) :
    (∀ key : String, |clampedAdjustment (domainImpact feedback key)| ≤ 0.02) ∧
      (allAtLeastFloor w →
        allAtLeastFloor (adjustedWeights feedback w) ∧
          weightsSum (updateWeightsFromFeedback feedback w).store = 1) := by
  constructor
  · intro key
    exact clampedAdjustment_abs_le _
  · intro hw
    have hadj : allAtLeastFloor (adjustedWeights feedback w) := by
      obtain ⟨h1, h2, h3, h4, h5, h6⟩ := hw
      exact ⟨adjustWeight_floor _ _ _ h1, adjustWeight_floor _ _ _ h2,
        adjustWeight_floor _ _ _ h3, adjustWeight_floor _ _ _ h4,
        adjustWeight_floor _ _ _ h5, adjustWeight_floor _ _ _ h6⟩
    refine ⟨hadj, ?_⟩
    have hne : ¬feedback.length = 0 := by
      intro h0
      rw [List.length_eq_zero] at h0
      subst h0
      simp at hfb
    have hsum : 0 < weightsSum (adjustedWeights feedback w) := by
      obtain ⟨h1, h2, h3, h4, h5, h6⟩ := hadj
      unfold weightsSum
      norm_num at h1 h2 h3 h4 h5 h6 ⊢
      linarith
    unfold updateWeightsFromFeedback
    rw [if_neg hne, if_neg (by omega)]
    exact weightsSum_normalize _ hsum

/-- One positive reaction on domain `ai` (no dimension name matches, so
no adjustment fires, but the run still renormalizes and persists). -/
def adapterWitnessFeedback : List FeedbackEntry :=
  [{ story_id := "s1", reaction := "👍", story_domains := ["ai"] }]

/-- Witness for the amended Claim C8 at one concrete positive-feedback
run over the default weights. -/
theorem adapter_bounds_witness :
    |clampedAdjustment (domainImpact adapterWitnessFeedback ("ai"))| ≤ 0.02 ∧
      weightsSum (updateWeightsFromFeedback adapterWitnessFeedback DEFAULT_WEIGHTS).store
        = 1 :=
  ⟨(adapter_bounds adapterWitnessFeedback DEFAULT_WEIGHTS (by decide)).1 ("ai"),
    ((adapter_bounds adapterWitnessFeedback DEFAULT_WEIGHTS (by decide)).2
      (by with_unfolding_all decide)).2⟩

/-! ## Claim C9 -/

/-- Claim C9: a Weight Adapter run whose feedback window contains no
entries, or no positive/negative reactions, leaves the persisted store
unchanged and reports a no-update summary rather than an error. -/
theorem adapter_no_feedback (feedback : List FeedbackEntry) (w : Weights)
    (h : ∀ e ∈ feedback, e.reaction ≠ "👍" ∧ e.reaction ≠ "👎") :
    (updateWeightsFromFeedback feedback w).store = w ∧
      (updateWeightsFromFeedback feedback w).updated = false ∧
      ((updateWeightsFromFeedback feedback w).summary = "No feedback data available" ∨
        (updateWeightsFromFeedback feedback w).summary = "No reactions recorded") := by
  have hp : feedback.filter (fun e => e.reaction == ("👍")) = [] :=
    List.filter_eq_nil_iff.mpr (fun e he => by simpa using (h e he).1)
  have hd : feedback.filter (fun e => e.reaction == ("👎")) = [] :=
    List.filter_eq_nil_iff.mpr (fun e he => by simpa using (h e he).2)
  unfold updateWeightsFromFeedback
  by_cases hl : feedback.length = 0
  · simp [hl]
  · simp [hl, hp, hd]

/-- Witness for Claim C9: the empty feedback window over the default
weights. -/
theorem adapter_no_feedback_witness :
    (updateWeightsFromFeedback [] DEFAULT_WEIGHTS).store = DEFAULT_WEIGHTS ∧
      (updateWeightsFromFeedback [] DEFAULT_WEIGHTS).updated = false ∧
      ((updateWeightsFromFeedback [] DEFAULT_WEIGHTS).summary = "No feedback data available" ∨
        (updateWeightsFromFeedback [] DEFAULT_WEIGHTS).summary = "No reactions recorded") :=
  adapter_no_feedback [] DEFAULT_WEIGHTS (by simp)

end Guttenberg
